import Mathlib

/-!
Verification development for the grass-fireworks SVG generator.

The TypeScript source is shallowly embedded:
* JS `number` arithmetic on times, ratios and canvas sizes is modeled by exact
  rational arithmetic (`ℚ`); quantities that flow through `Math.cos`/`Math.sin`
  are modeled over `ℝ` with Mathlib's `Real.cos`/`Real.sin`.
* `Math.round x` is `round : ℝ → ℤ` (both are `⌊x + 1/2⌋`), `Math.floor` is
  `Int.floor`, and `Number.prototype.toFixed` is `jsToFixed` below (decimal
  rounding with ties away from zero, per the ECMAScript algorithm).
* The unseeded `Math.random()` stream consumed by `generateSparklerEffect`
  (one draw per loop iteration) is made explicit: the generator receives a
  stream `mrand : ℕ → ℚ` and particle `i` consumes draw `mrand i`.
* The seeded mulberry32 PRNG of `src/utils/random.ts` is embedded exactly
  over `ℕ` (all its JS bit operations coerce to 32-bit values, so keeping the
  state reduced mod 2^32 is faithful); its state is threaded through the
  generators the way the source closures advance it.
* Generated markup is embedded as a list of `Piece`s: literal template chunks
  plus structured `animate`/`animateTransform` elements carrying their
  `values` and `keyTimes` lists.  `renderF` flattens a fragment to the final
  string exactly as the template literals concatenate it.
-/

namespace GrassFireworks

/-! ### JS numeric formatting helpers -/

/-- Decimal digits of the fractional part `num/den` (`num < den`), most
significant first, stopping when the expansion terminates (all rationals
reached by the generators have terminating decimal expansions). -/
def fracDigits : ℕ → ℕ → ℕ → List Char
  | 0, _, _ => []
  | _ + 1, _, 0 => []
  | fuel + 1, num, den =>
    if num = 0 then []
    else
      let d := num * 10 / den
      Char.ofNat (48 + d) :: fracDigits fuel (num * 10 % den) den

/-- JS template-literal interpolation of a number value: integers print with
no decimal point, other values print their (terminating) decimal expansion. -/
def fmtQ (x : ℚ) : String :=
  let sign := if x < 0 then "-" else ""
  let a := x.num.natAbs
  let d := x.den
  let ip := a / d
  let fr := a % d
  if fr = 0 then sign ++ Nat.repr ip
  else sign ++ Nat.repr ip ++ "." ++ String.mk (fracDigits 40 fr d)

/-- Left-pads a numeral with zeros up to length `p`. -/
def padZeros (p : ℕ) (s : String) : String :=
  String.mk (List.replicate (p - s.length) (Char.ofNat 48)) ++ s

/-- `Number.prototype.toFixed`: the sign is taken from the argument, then the
magnitude is rounded to `p` decimal digits, ties away from zero. -/
def jsToFixed (p : ℕ) (x : ℚ) : String :=
  let sign := if x < 0 then "-" else ""
  let n := (⌊|x| * 10 ^ p + 1 / 2⌋).toNat
  if p = 0 then sign ++ Nat.repr n
  else sign ++ Nat.repr (n / 10 ^ p) ++ "." ++ padZeros p (Nat.repr (n % 10 ^ p))

/-- Numeric value of `Number(x.toFixed(p))`: round to `p` decimal places,
ties away from zero. -/
def roundToPrec (p : ℕ) (x : ℚ) : ℚ :=
  (if x < 0 then -1 else 1) * (⌊|x| * 10 ^ p + 1 / 2⌋ : ℚ) / 10 ^ p

/-- JS template-literal interpolation of an integer-valued expression. -/
def intStr (n : ℤ) : String := toString n

/-! ### Timeline helpers (`src/utils/svg-helpers.ts`) -/

/-- Options record of `animateAttr`/`animateTransform`; `none` fields take the
source defaults (`begin = "0s"`, `repeatCount = "indefinite"`). -/
structure AnimateOptions where
  calcMode : Option String
  keySplines : Option String
  begin_ : Option String
  repeatCount : Option String
  fill : Option String

/-- The all-`none` options value (TS `options = {}`). -/
def AnimateOptions.default : AnimateOptions := ⟨none, none, none, none, none⟩

/-- Error message thrown by `animateAttr` on a length mismatch. -/
def animateAttrError (attr : String) (vLen ktLen : ℕ) : String :=
  "animateAttr: values/keyTimes length mismatch for \"" ++ attr ++ "\". " ++
    "values has " ++ Nat.repr vLen ++ " items, keyTimes has " ++
    Nat.repr ktLen ++ " items."

/-- Error message thrown by `animateTransform` on a length mismatch. -/
def animateTransformError (type_ : String) (vLen ktLen : ℕ) : String :=
  "animateTransform: values/keyTimes length mismatch for \"" ++ type_ ++ "\". " ++
    "values has " ++ Nat.repr vLen ++ " items, keyTimes has " ++
    Nat.repr ktLen ++ " items."

/-- Shared attribute-list assembly of the two helpers. -/
def animateBody (head : List String) (values : List String) (keyTimes : List ℚ)
    (dur : String) (options : AnimateOptions) : String :=
  let begin_ := options.begin_.getD "0s"
  let repeatCount := options.repeatCount.getD "indefinite"
  let attrs := head ++
    ["values=\"" ++ String.intercalate ";" values ++ "\"",
     "keyTimes=\"" ++ String.intercalate ";" (keyTimes.map fmtQ) ++ "\"",
     "dur=\"" ++ dur ++ "\"",
     "begin=\"" ++ begin_ ++ "\"",
     "repeatCount=\"" ++ repeatCount ++ "\""]
  let attrs := attrs ++ (match options.calcMode with
    | some cm => ["calcMode=\"" ++ cm ++ "\""]
    | none => [])
  let attrs := attrs ++ (match options.keySplines, options.calcMode with
    | some ks, some cm => if cm = "spline" then ["keySplines=\"" ++ ks ++ "\""] else []
    | _, _ => [])
  let attrs := attrs ++ (match options.fill with
    | some f => ["fill=\"" ++ f ++ "\""]
    | none => [])
  String.intercalate " " attrs

/-- `animateAttr` of `src/utils/svg-helpers.ts`; the thrown `Error` is
modeled as the `Except.error` branch. -/
def animateAttr (attr : String) (values : List String) (keyTimes : List ℚ)
    (dur : String) (options : AnimateOptions) : Except String String :=
  if values.length ≠ keyTimes.length then
    .error (animateAttrError attr values.length keyTimes.length)
  else
    .ok ("<animate " ++
      animateBody ["attributeName=\"" ++ attr ++ "\""] values keyTimes dur options ++ "/>")

/-- `animateTransform` of `src/utils/svg-helpers.ts`. -/
def animateTransform (type_ : String) (values : List String) (keyTimes : List ℚ)
    (dur : String) (options : AnimateOptions) : Except String String :=
  if values.length ≠ keyTimes.length then
    .error (animateTransformError type_ values.length keyTimes.length)
  else
    .ok ("<animateTransform " ++
      animateBody ["attributeName=\"transform\"", "type=\"" ++ type_ ++ "\""]
        values keyTimes dur options ++ "/>")

/-- `toKeyTime`: `Math.min(time / loopInterval, 0.99).toFixed(precision)`. -/
def toKeyTime (time loopInterval : ℚ) (precision : ℕ) : String :=
  jsToFixed precision (min (time / loopInterval) (99 / 100))

/-- `toKeyTimes`: maps each time to `Number(min(t / loopInterval, 0.99)
.toFixed(precision))`, except that the last element is forced to exactly `1`
when its raw value reaches `loopInterval`. -/
def toKeyTimes (times : List ℚ) (loopInterval : ℚ) (precision : ℕ) : List ℚ :=
  times.mapIdx fun i t =>
    if i = times.length - 1 ∧ loopInterval ≤ t then 1
    else roundToPrec precision (min (t / loopInterval) (99 / 100))

/-! ### Fireworks level (`src/services/fireworks-level.ts`) -/

inductive FireworksLevel where
  | l0 | l1 | l2 | l3 | l4 | l5
deriving DecidableEq, Repr

/-- `calculateLevel`: classifies a commit count into the level bands
0, 1–3, 4–7, 8–15, 16–29, 30+. -/
def calculateLevel (commits : ℤ) : FireworksLevel :=
  if commits ≤ 0 then .l0
  else if commits ≤ 3 then .l1
  else if commits ≤ 7 then .l2
  else if commits ≤ 15 then .l3
  else if commits ≤ 29 then .l4
  else .l5

/-- Numeric value of a level (used by arithmetic on levels in the composer). -/
def FireworksLevel.toNat : FireworksLevel → ℕ
  | .l0 => 0 | .l1 => 1 | .l2 => 2 | .l3 => 3 | .l4 => 4 | .l5 => 5

/-! ### Seeded PRNG (`src/utils/random.ts`) -/

def U32 : ℕ := 4294967296

/-- `Math.imul`, on 32-bit values represented as naturals mod `2^32`. -/
def imul (a b : ℕ) : ℕ := a * b % U32

/-- Output mixing of one mulberry32 draw from the advanced state `t0`.
All JS bitwise steps coerce to 32 bits, which the `% U32` reductions mirror. -/
def mulberryOut (t0 : ℕ) : ℚ :=
  let t1 := imul (Nat.xor t0 (t0 >>> 15)) (t0 ||| 1)
  let t2 := Nat.xor t1 ((t1 + imul (Nat.xor t1 (t1 >>> 7)) (t1 ||| 61)) % U32)
  ((Nat.xor t2 (t2 >>> 14) : ℚ)) / (U32 : ℚ)

/-- One draw of `createSeededRandom`: the closure state advances by the
constant `0x6d2b79f5` and the mixed output is returned. -/
def mulberryNext (s : ℕ) : ℕ × ℚ :=
  let s' := (s + 0x6d2b79f5) % U32
  (s', mulberryOut s')

/-- ECMAScript `ToInt32`. -/
def toInt32 (n : ℤ) : ℤ := (n + 2 ^ 31) % 2 ^ 32 - 2 ^ 31

/-- One step of the `stringToSeed` hash loop:
`hash = (hash << 5) - hash + char` followed by `hash = hash & hash` (a
`ToInt32` coercion). -/
def hashStep (hash : ℤ) (c : ℕ) : ℤ :=
  toInt32 (toInt32 (hash * 32) - hash + c)

/-- `stringToSeed`: polynomial rolling hash over UTF-16 code units reduced to
32-bit signed range, then absolute value. -/
def stringToSeed (str : String) : ℕ :=
  (str.data.foldl (fun h c => hashStep h c.toNat) 0).natAbs

/-! ### Shape calculators (`src/generators/parts/shapes.ts`) -/

/-- A particle position offset. -/
structure Position where
  dx : ℤ
  dy : ℤ
deriving DecidableEq, Repr

/-- `getCirclePositions`: `count` offsets evenly spaced by angle
`2π·i/count`, rounded. -/
noncomputable def getCirclePositions (count : ℕ) (radius : ℝ) : List Position :=
  (List.range count).map fun i : ℕ =>
    let angle : ℝ := 2 * Real.pi * (i : ℝ) / (count : ℝ)
    ⟨round (Real.cos angle * radius), round (Real.sin angle * radius)⟩

/-- `getHeartPositions`: parametric heart curve, scaled and rounded. -/
noncomputable def getHeartPositions (count : ℕ) (scale : ℝ) : List Position :=
  (List.range count).map fun i : ℕ =>
    let t : ℝ := 2 * Real.pi * (i : ℝ) / (count : ℝ)
    let x : ℝ := 16 * Real.sin t ^ 3
    let y : ℝ := -(13 * Real.cos t - 5 * Real.cos (2 * t) - 2 * Real.cos (3 * t)
      - Real.cos (4 * t))
    ⟨round (x * scale), round (y * scale)⟩

/-- `getStarPositions`: alternates outer/inner radius over ten angular slots
of a five-pointed star, offset by `-π/2`; indices wrap mod 10. -/
noncomputable def getStarPositions (count : ℕ) (outerRadius innerRadius : ℝ) :
    List Position :=
  (List.range count).map fun i : ℕ =>
    let pointIndex : ℕ := i % 10
    let angle : ℝ := 2 * Real.pi * (pointIndex : ℝ) / 10 - Real.pi / 2
    let radius : ℝ := if pointIndex % 2 = 0 then outerRadius else innerRadius
    ⟨round (Real.cos angle * radius), round (Real.sin angle * radius)⟩

/-! ### Markup fragment model

A generated template literal is embedded as a list of `Piece`s: literal
chunks, plus one structured node per `<animate>`/`<animateTransform>`
element.  An `anim` node splits its element's text at the two array
interpolations (`values="..."`, `keyTimes="..."`), so rendering it
reproduces the template byte for byte while keeping the two lists
inspectable. -/

inductive Piece where
  /-- A literal markup chunk. -/
  | raw (s : String)
  /-- One `animate` (`tf = false`) or `animateTransform` (`tf = true`)
  element: `pre ++ join values ++ mid ++ join keyTimes ++ post`; `keyTimes`
  is `none` for elements whose template has no `keyTimes` attribute. -/
  | anim (tf : Bool) (pre : String) (values : List String) (mid : String)
      (keyTimes : Option (List String)) (post : String)

/-- Fragment: a flattened sequence of markup pieces. -/
abbrev Frag := List Piece

/-- Renders one piece to its markup text. -/
def Piece.render : Piece → String
  | .raw s => s
  | .anim _ pre values mid kt post =>
    pre ++ String.intercalate ";" values ++ mid ++
      (match kt with
       | some l => String.intercalate ";" l
       | none => "") ++ post

/-- Renders a fragment to the final markup string. -/
def renderF (f : Frag) : String := String.join (f.map Piece.render)

/-- Is this piece a declarative timeline element? -/
def Piece.isAnim : Piece → Bool
  | .raw _ => false
  | .anim _ _ _ _ _ _ => true

/-- Number of declarative timeline elements in a fragment. -/
def countA (f : Frag) : ℕ := (f.filter Piece.isAnim).length

/-- `Array.prototype.join(sep)` at the fragment level. -/
def joinSep (sep : String) : List Frag → Frag
  | [] => []
  | [f] => f
  | f :: fs => f ++ [Piece.raw sep] ++ joinSep sep fs

/-- Timeline consistency: the element carries a `keyTimes` list matching its
`values` list in length, and the final time fraction is the literal `1`. -/
def Piece.timelineOk : Piece → Prop
  | .raw _ => True
  | .anim _ _ values _ kt _ =>
    ∃ l, kt = some l ∧ values.length = l.length ∧ l.getLast? = some "1"

/-- Like `Piece.timelineOk` but without constraining the final fraction. -/
def Piece.lengthsOk : Piece → Prop
  | .raw _ => True
  | .anim _ _ values _ kt _ => ∃ l, kt = some l ∧ values.length = l.length

/-- Last `keyTimes` entry of an `anim` piece. -/
def Piece.lastKeyTime : Piece → Option String
  | .raw _ => none
  | .anim _ _ _ _ kt _ => kt.bind List.getLast?

/-- A fragment's declarative timelines all satisfy the core invariant. -/
def fragOk (f : Frag) : Prop := ∀ p ∈ f, p.timelineOk

/-! ### Color palette (`src/constants.ts`) -/

inductive FireworkColorName where
  | green | blue | purple | orange | pink | yellow | cyan | red
  | gold | silver | wabi | sakura | white | champagne | crimson
deriving DecidableEq, Repr, Inhabited

def FIREWORK_COLORS : FireworkColorName → String
  | .green => "#39d353"
  | .blue => "#58a6ff"
  | .purple => "#bc8cff"
  | .orange => "#f0883e"
  | .pink => "#f778ba"
  | .yellow => "#d29922"
  | .cyan => "#39c5cf"
  | .red => "#f85149"
  | .gold => "#ffd700"
  | .silver => "#c0c0c0"
  | .wabi => "#cd5c5c"
  | .sakura => "#ffb7c5"
  | .white => "#ffffff"
  | .champagne => "#f7e7ce"
  | .crimson => "#dc143c"

/-! ### Theme trail and particle generators
(`src/generators/parts/particles.ts`; the private `generateTrail` /
`generateParticles` helpers of the matsuri theme module are textually
identical to `generateThemeTrail` / `generateThemeParticles` and are embedded
by these same definitions) -/

structure ThemeTrailConfig where
  x : ℚ
  startY : ℚ
  endY : ℚ
  color : FireworkColorName
  duration : ℚ
  delay : ℚ
  loopInterval : ℚ
  id : Option String

/-- `generateThemeTrail`: a rising line with three synchronized timelines. -/
def generateThemeTrail (c : ThemeTrailConfig) : Frag :=
  let colorValue := FIREWORK_COLORS c.color
  let trailId := match c.id with
    | some i => " id=\"" ++ i ++ "\""
    | none => ""
  let trailEnd := (c.delay + c.duration) / c.loopInterval
  let fadeEnd := min ((c.delay + c.duration + 3/10) / c.loopInterval) (99/100)
  [Piece.raw ("<line" ++ trailId ++ " x1=\"" ++ fmtQ c.x ++ "\" y1=\"" ++
      fmtQ c.startY ++ "\" x2=\"" ++ fmtQ c.x ++ "\" y2=\"" ++ fmtQ c.startY ++
      "\"\n      stroke=\"" ++ colorValue ++
      "\" stroke-width=\"3\" stroke-linecap=\"round\" opacity=\"0\">\n    "),
   Piece.anim false "<animate attributeName=\"y2\"\n             values=\""
     [fmtQ c.startY, fmtQ c.startY, fmtQ c.endY, fmtQ c.endY]
     "\"\n             keyTimes=\""
     (some ["0", jsToFixed 4 (c.delay / c.loopInterval), jsToFixed 4 trailEnd, "1"])
     ("\"\n             calcMode=\"spline\"\n             keySplines=\"0 0 1 1;0.1 0.8 0.2 1;0 0 1 1\"\n             dur=\"" ++
      fmtQ c.loopInterval ++
      "s\" begin=\"0s\"\n             repeatCount=\"indefinite\" />\n    "),
   Piece.anim false "<animate attributeName=\"y1\"\n             values=\""
     [fmtQ c.startY, fmtQ c.startY, fmtQ c.startY, fmtQ c.endY, fmtQ c.endY]
     "\"\n             keyTimes=\""
     (some ["0", jsToFixed 4 (c.delay / c.loopInterval),
       jsToFixed 4 ((c.delay + c.duration * 1/2) / c.loopInterval),
       jsToFixed 4 fadeEnd, "1"])
     ("\"\n             dur=\"" ++ fmtQ c.loopInterval ++
      "s\" begin=\"0s\"\n             repeatCount=\"indefinite\" />\n    "),
   Piece.anim false "<animate attributeName=\"opacity\"\n             values=\""
     ["0", "0", "1", "0.8", "0", "0"]
     "\"\n             keyTimes=\""
     (some ["0", jsToFixed 4 (c.delay / c.loopInterval),
       jsToFixed 4 ((c.delay + 1/20) / c.loopInterval),
       jsToFixed 4 trailEnd, jsToFixed 4 fadeEnd, "1"])
     ("\"\n             dur=\"" ++ fmtQ c.loopInterval ++
      "s\" begin=\"0s\"\n             repeatCount=\"indefinite\" />\n  </line>")]

structure ThemeParticleConfig where
  cx : ℚ
  cy : ℚ
  particleCount : ℕ
  distance : ℚ
  color : FireworkColorName
  duration : ℚ
  delay : ℚ
  loopInterval : ℚ
  applyGlow : Bool
  id : Option String
  initialRadius : ℚ

/-- One particle circle of `generateThemeParticles` (loop body at index `i`). -/
noncomputable def themeParticle (c : ThemeParticleConfig) (i : ℕ) : Frag :=
  let colorValue := FIREWORK_COLORS c.color
  let filterAttr := if c.applyGlow then " filter=\"url(#fireworkGlow)\"" else ""
  let explosionStart := c.delay / c.loopInterval
  let explosionEnd := (c.delay + c.duration) / c.loopInterval
  let angle : ℝ := 2 * Real.pi * i / c.particleCount
  let dx : ℤ := round (Real.cos angle * (c.distance : ℝ))
  let dy : ℤ := round (Real.sin angle * (c.distance : ℝ))
  [Piece.raw ("    <circle cx=\"" ++ fmtQ c.cx ++ "\" cy=\"" ++ fmtQ c.cy ++
      "\" r=\"" ++ fmtQ c.initialRadius ++ "\" fill=\"" ++ colorValue ++ "\"" ++
      filterAttr ++ " opacity=\"0\">\n      "),
   Piece.anim true
     "<animateTransform attributeName=\"transform\"\n                        type=\"translate\"\n                        values=\""
     ["0 0", "0 0", intStr dx ++ " " ++ intStr dy, intStr dx ++ " " ++ intStr dy]
     "\"\n                        keyTimes=\""
     (some ["0", jsToFixed 4 explosionStart, jsToFixed 4 explosionEnd, "1"])
     ("\"\n                        calcMode=\"spline\"\n                        keySplines=\"0 0 1 1;0.1 0.8 0.3 1;0 0 1 1\"\n                        dur=\"" ++
      fmtQ c.loopInterval ++
      "s\" begin=\"0s\"\n                        repeatCount=\"indefinite\" />\n      "),
   Piece.anim false
     "<animate attributeName=\"opacity\"\n               values=\""
     ["0", "0", "1", "0.7", "0", "0"]
     "\"\n               keyTimes=\""
     (some ["0", jsToFixed 4 explosionStart,
       jsToFixed 4 ((c.delay + 1/20) / c.loopInterval),
       jsToFixed 4 ((c.delay + c.duration * 7/10) / c.loopInterval),
       jsToFixed 4 explosionEnd, "1"])
     ("\"\n               dur=\"" ++ fmtQ c.loopInterval ++
      "s\" begin=\"0s\"\n               repeatCount=\"indefinite\" />\n      "),
   Piece.anim false
     "<animate attributeName=\"r\"\n               values=\""
     [fmtQ c.initialRadius, fmtQ c.initialRadius, fmtQ c.initialRadius,
      fmtQ (c.initialRadius * 3/10), fmtQ (c.initialRadius * 3/10)]
     "\"\n               keyTimes=\""
     (some ["0", jsToFixed 4 explosionStart,
       jsToFixed 4 ((c.delay + 1/10) / c.loopInterval),
       jsToFixed 4 explosionEnd, "1"])
     ("\"\n               dur=\"" ++ fmtQ c.loopInterval ++
      "s\" begin=\"0s\"\n               repeatCount=\"indefinite\" />\n    </circle>")]

/-- `generateThemeParticles`: a radial burst of `particleCount` circles. -/
noncomputable def generateThemeParticles (c : ThemeParticleConfig) : Frag :=
  let groupId := match c.id with
    | some i => " id=\"" ++ i ++ "\""
    | none => ""
  [Piece.raw ("<g" ++ groupId ++ " class=\"firework-particles\">\n")] ++
    joinSep "\n" ((List.range c.particleCount).map (themeParticle c)) ++
    [Piece.raw "\n  </g>"]

/-- `generateSpark`: a white twinkle circle with two timelines. -/
def generateSpark (cx cy : ℚ) (color : FireworkColorName) (delay loopDuration : ℚ) :
    Frag :=
  let sparkStart := delay / loopDuration
  let sparkEnd := (delay + 3/10) / loopDuration
  let _colorValue := FIREWORK_COLORS color
  [Piece.raw ("<circle cx=\"" ++ fmtQ cx ++ "\" cy=\"" ++ fmtQ cy ++
      "\" r=\"0\" fill=\"white\" opacity=\"0\">\n    "),
   Piece.anim false "<animate attributeName=\"r\"\n             values=\""
     ["0", "0", "8", "0", "0"]
     "\"\n             keyTimes=\""
     (some ["0", jsToFixed 3 sparkStart, jsToFixed 3 ((sparkStart + sparkEnd) * 1/2),
       jsToFixed 3 sparkEnd, "1"])
     ("\"\n             dur=\"" ++ fmtQ loopDuration ++
      "s\" begin=\"0s\"\n             repeatCount=\"indefinite\" />\n    "),
   Piece.anim false "<animate attributeName=\"opacity\"\n             values=\""
     ["0", "0", "1", "0", "0"]
     "\"\n             keyTimes=\""
     (some ["0", jsToFixed 3 sparkStart, jsToFixed 3 ((sparkStart + sparkEnd) * 1/2),
       jsToFixed 3 sparkEnd, "1"])
     ("\"\n             dur=\"" ++ fmtQ loopDuration ++
      "s\" begin=\"0s\"\n             repeatCount=\"indefinite\" />\n  </circle>")]

structure RotatingParticleConfig where
  cx : ℚ
  cy : ℚ
  particleCount : ℕ
  distance : ℚ
  color : FireworkColorName
  duration : ℚ
  delay : ℚ
  loopDuration : ℚ
  rotationSpeed : ℚ
  applyGlow : Bool
  id : Option String

/-- One particle circle of `generateRotatingParticles`. -/
noncomputable def rotatingParticle (c : RotatingParticleConfig) (i : ℕ) : Frag :=
  let colorValue := FIREWORK_COLORS c.color
  let filterAttr := if c.applyGlow then " filter=\"url(#fireworkGlow)\"" else ""
  let explosionStart := c.delay / c.loopDuration
  let explosionEnd := (c.delay + c.duration) / c.loopDuration
  let angle : ℝ := 2 * Real.pi * i / c.particleCount
  let dx : ℤ := round (Real.cos angle * (c.distance : ℝ))
  let dy : ℤ := round (Real.sin angle * (c.distance : ℝ))
  [Piece.raw ("    <circle cx=\"" ++ fmtQ c.cx ++ "\" cy=\"" ++ fmtQ c.cy ++
      "\" r=\"3\" fill=\"" ++ colorValue ++ "\"" ++ filterAttr ++
      " opacity=\"0\">\n      "),
   Piece.anim true
     "<animateTransform attributeName=\"transform\"\n                        type=\"translate\"\n                        values=\""
     ["0 0", "0 0", intStr dx ++ " " ++ intStr dy, intStr dx ++ " " ++ intStr dy]
     "\"\n                        keyTimes=\""
     (some ["0", jsToFixed 3 explosionStart, jsToFixed 3 explosionEnd, "1"])
     ("\"\n                        calcMode=\"spline\"\n                        keySplines=\"0 0 1 1;0.3 0.7 0.4 1;0 0 1 1\"\n                        dur=\"" ++
      fmtQ c.loopDuration ++
      "s\" begin=\"0s\"\n                        repeatCount=\"indefinite\" />\n      "),
   Piece.anim true
     "<animateTransform attributeName=\"transform\"\n                        type=\"rotate\"\n                        values=\""
     ["0 " ++ fmtQ c.cx ++ " " ++ fmtQ c.cy, "0 " ++ fmtQ c.cx ++ " " ++ fmtQ c.cy,
      fmtQ c.rotationSpeed ++ " " ++ fmtQ c.cx ++ " " ++ fmtQ c.cy,
      fmtQ c.rotationSpeed ++ " " ++ fmtQ c.cx ++ " " ++ fmtQ c.cy]
     "\"\n                        keyTimes=\""
     (some ["0", jsToFixed 3 explosionStart, jsToFixed 3 explosionEnd, "1"])
     ("\"\n                        dur=\"" ++ fmtQ c.loopDuration ++
      "s\" begin=\"0s\"\n                        repeatCount=\"indefinite\"\n                        additive=\"sum\" />\n      "),
   Piece.anim false
     "<animate attributeName=\"opacity\"\n               values=\""
     ["0", "0", "1", "0", "0"]
     "\"\n               keyTimes=\""
     (some ["0", jsToFixed 3 explosionStart,
       jsToFixed 3 ((c.delay + 1/10) / c.loopDuration),
       jsToFixed 3 explosionEnd, "1"])
     ("\"\n               dur=\"" ++ fmtQ c.loopDuration ++
      "s\" begin=\"0s\"\n               repeatCount=\"indefinite\" />\n      "),
   Piece.anim false
     "<animate attributeName=\"r\"\n               values=\""
     ["3", "3", "3", "1", "1"]
     "\"\n               keyTimes=\""
     (some ["0", jsToFixed 3 explosionStart,
       jsToFixed 3 ((c.delay + 1/10) / c.loopDuration),
       jsToFixed 3 explosionEnd, "1"])
     ("\"\n               dur=\"" ++ fmtQ c.loopDuration ++
      "s\" begin=\"0s\"\n               repeatCount=\"indefinite\" />\n    </circle>")]

/-- `generateRotatingParticles` (Hachi/Bee style). -/
noncomputable def generateRotatingParticles (c : RotatingParticleConfig) : Frag :=
  let groupId := match c.id with
    | some i => " id=\"" ++ i ++ "\""
    | none => ""
  [Piece.raw ("<g" ++ groupId ++ " class=\"rotating-particles\">\n")] ++
    joinSep "\n" ((List.range c.particleCount).map (rotatingParticle c)) ++
    [Piece.raw "\n  </g>"]

structure GravityParticleConfig where
  cx : ℚ
  cy : ℚ
  particleCount : ℕ
  distance : ℚ
  color : FireworkColorName
  duration : ℚ
  delay : ℚ
  loopDuration : ℚ
  gravityDrop : ℚ
  applyGlow : Bool
  id : Option String

/-- One particle circle of `generateGravityParticles`. -/
noncomputable def gravityParticle (c : GravityParticleConfig) (i : ℕ) : Frag :=
  let colorValue := FIREWORK_COLORS c.color
  let filterAttr := if c.applyGlow then " filter=\"url(#fireworkGlow)\"" else ""
  let explosionStart := c.delay / c.loopDuration
  let expandEnd := (c.delay + c.duration * 2/5) / c.loopDuration
  let droopEnd := (c.delay + c.duration) / c.loopDuration
  let angle : ℝ := 2 * Real.pi * i / c.particleCount
  let dx : ℤ := round (Real.cos angle * (c.distance : ℝ))
  let dy : ℤ := round (Real.sin angle * (c.distance : ℝ))
  let finalDy : ℚ := (dy : ℚ) + c.gravityDrop
  [Piece.raw ("    <circle cx=\"" ++ fmtQ c.cx ++ "\" cy=\"" ++ fmtQ c.cy ++
      "\" r=\"4\" fill=\"" ++ colorValue ++ "\"" ++ filterAttr ++
      " opacity=\"0\">\n      "),
   Piece.anim true
     "<animateTransform attributeName=\"transform\"\n                        type=\"translate\"\n                        values=\""
     ["0 0", "0 0", intStr dx ++ " " ++ intStr dy, intStr dx ++ " " ++ fmtQ finalDy,
      intStr dx ++ " " ++ fmtQ finalDy]
     "\"\n                        keyTimes=\""
     (some ["0", jsToFixed 3 explosionStart, jsToFixed 3 expandEnd,
       jsToFixed 3 droopEnd, "1"])
     ("\"\n                        calcMode=\"spline\"\n                        keySplines=\"0 0 1 1;0.2 0.8 0.4 1;0.4 0 0.6 1;0 0 1 1\"\n                        dur=\"" ++
      fmtQ c.loopDuration ++
      "s\" begin=\"0s\"\n                        repeatCount=\"indefinite\" />\n      "),
   Piece.anim false
     "<animate attributeName=\"opacity\"\n               values=\""
     ["0", "0", "1", "0.8", "0", "0"]
     "\"\n               keyTimes=\""
     (some ["0", jsToFixed 3 explosionStart,
       jsToFixed 3 ((c.delay + 1/10) / c.loopDuration),
       jsToFixed 3 expandEnd, jsToFixed 3 droopEnd, "1"])
     ("\"\n               dur=\"" ++ fmtQ c.loopDuration ++
      "s\" begin=\"0s\"\n               repeatCount=\"indefinite\" />\n      "),
   Piece.anim false
     "<animate attributeName=\"r\"\n               values=\""
     ["4", "4", "4", "2", "1", "1"]
     "\"\n               keyTimes=\""
     (some ["0", jsToFixed 3 explosionStart,
       jsToFixed 3 ((c.delay + 1/10) / c.loopDuration),
       jsToFixed 3 expandEnd, jsToFixed 3 droopEnd, "1"])
     ("\"\n               dur=\"" ++ fmtQ c.loopDuration ++
      "s\" begin=\"0s\"\n               repeatCount=\"indefinite\" />\n    </circle>")]

/-- `generateGravityParticles` (Kankiku/Weeping Willow style). -/
noncomputable def generateGravityParticles (c : GravityParticleConfig) : Frag :=
  let groupId := match c.id with
    | some i => " id=\"" ++ i ++ "\""
    | none => ""
  [Piece.raw ("<g" ++ groupId ++ " class=\"gravity-particles\">\n")] ++
    joinSep "\n" ((List.range c.particleCount).map (gravityParticle c)) ++
    [Piece.raw "\n  </g>"]

structure ShapedParticleConfig where
  cx : ℚ
  cy : ℚ
  positions : List Position
  color : FireworkColorName
  duration : ℚ
  delay : ℚ
  loopDuration : ℚ
  applyGlow : Bool
  id : Option String
  initialRadius : ℚ

/-- One particle circle of `generateShapedParticles` at position index `i`. -/
def shapedParticle (c : ShapedParticleConfig) (i : ℕ) (pos : Position) : Frag :=
  let colorValue := FIREWORK_COLORS c.color
  let filterAttr := if c.applyGlow then " filter=\"url(#fireworkGlow)\"" else ""
  let explosionEnd := (c.delay + c.duration) / c.loopDuration
  let particleDelay := c.delay + i * (1/50 : ℚ)
  let pStart := particleDelay / c.loopDuration
  [Piece.raw ("    <circle cx=\"" ++ fmtQ c.cx ++ "\" cy=\"" ++ fmtQ c.cy ++
      "\" r=\"" ++ fmtQ c.initialRadius ++ "\" fill=\"" ++ colorValue ++ "\"" ++
      filterAttr ++ " opacity=\"0\">\n      "),
   Piece.anim true
     "<animateTransform attributeName=\"transform\"\n                        type=\"translate\"\n                        values=\""
     ["0 0", "0 0", intStr pos.dx ++ " " ++ intStr pos.dy,
      intStr pos.dx ++ " " ++ intStr pos.dy]
     "\"\n                        keyTimes=\""
     (some ["0", jsToFixed 3 pStart, jsToFixed 3 explosionEnd, "1"])
     ("\"\n                        calcMode=\"spline\"\n                        keySplines=\"0 0 1 1;0.1 0.8 0.3 1;0 0 1 1\"\n                        dur=\"" ++
      fmtQ c.loopDuration ++
      "s\" begin=\"0s\"\n                        repeatCount=\"indefinite\" />\n      "),
   Piece.anim false
     "<animate attributeName=\"opacity\"\n               values=\""
     ["0", "0", "1", "0", "0"]
     "\"\n               keyTimes=\""
     (some ["0", jsToFixed 3 pStart,
       jsToFixed 3 ((particleDelay + 2/25) / c.loopDuration),
       jsToFixed 3 explosionEnd, "1"])
     ("\"\n               dur=\"" ++ fmtQ c.loopDuration ++
      "s\" begin=\"0s\"\n               repeatCount=\"indefinite\" />\n    </circle>")]

/-- `generateShapedParticles` (heart/star shaped bursts with per-index
stagger `delay + i·0.02`). -/
def generateShapedParticles (c : ShapedParticleConfig) : Frag :=
  let groupId := match c.id with
    | some i => " id=\"" ++ i ++ "\""
    | none => ""
  [Piece.raw ("<g" ++ groupId ++ " class=\"shaped-particles\">\n")] ++
    joinSep "\n" (c.positions.mapIdx (shapedParticle c)) ++
    [Piece.raw "\n  </g>"]

structure ReflectionConfig where
  cx : ℚ
  cy : ℚ
  waterY : ℚ
  particleCount : ℕ
  distance : ℚ
  color : FireworkColorName
  duration : ℚ
  delay : ℚ
  loopDuration : ℚ
  id : Option String

/-- One reflection point of `generateReflectionPoints` at index `i` of the
lower semicircle. -/
noncomputable def reflectionPoint (c : ReflectionConfig) (reflectionCount i : ℕ) :
    Frag :=
  let colorValue := FIREWORK_COLORS c.color
  let reflectionY := c.waterY + 15
  let explosionStart := c.delay / c.loopDuration
  let explosionEnd := (c.delay + c.duration) / c.loopDuration
  let angle : ℝ := Real.pi * (1/5 + ((i : ℝ) / reflectionCount) * 3/5)
  let dx : ℤ := round (Real.cos angle * (c.distance : ℝ) * (9/10 : ℝ))
  let yOffset : ℤ := round (Real.sin angle * (c.distance : ℝ) * (1/4 : ℝ))
  let particleY : ℚ := reflectionY + yOffset
  let driftY : ℤ := round (Real.sin angle * (c.distance : ℝ) * (3/20 : ℝ))
  [Piece.raw ("    <circle cx=\"" ++ fmtQ c.cx ++ "\" cy=\"" ++ fmtQ particleY ++
      "\" r=\"4\" fill=\"" ++ colorValue ++
      "\" filter=\"url(#fireworkGlow)\" opacity=\"0\">\n      "),
   Piece.anim true
     "<animateTransform attributeName=\"transform\"\n                        type=\"translate\"\n                        values=\""
     ["0 0", "0 0", intStr dx ++ " " ++ intStr driftY, intStr dx ++ " " ++ intStr driftY]
     "\"\n                        keyTimes=\""
     (some ["0", jsToFixed 3 explosionStart, jsToFixed 3 explosionEnd, "1"])
     ("\"\n                        dur=\"" ++ fmtQ c.loopDuration ++
      "s\" begin=\"0s\"\n                        repeatCount=\"indefinite\" />\n      "),
   Piece.anim false
     "<animate attributeName=\"opacity\"\n               values=\""
     ["0", "0", "1", "0.6", "0", "0"]
     "\"\n               keyTimes=\""
     (some ["0", jsToFixed 3 explosionStart,
       jsToFixed 3 ((c.delay + 3/20) / c.loopDuration),
       jsToFixed 3 ((c.delay + c.duration * 1/2) / c.loopDuration),
       jsToFixed 3 explosionEnd, "1"])
     ("\"\n               dur=\"" ++ fmtQ c.loopDuration ++
      "s\" begin=\"0s\"\n               repeatCount=\"indefinite\" />\n    </circle>")]

/-- `generateReflectionPoints` (Suwa Lake water reflection). -/
noncomputable def generateReflectionPoints (c : ReflectionConfig) : Frag :=
  let groupId := match c.id with
    | some i => " id=\"" ++ i ++ "\""
    | none => ""
  let reflectionCount := c.particleCount / 2
  [Piece.raw ("<g" ++ groupId ++ " class=\"water-reflection\" opacity=\"1.0\">\n")] ++
    joinSep "\n" ((List.range reflectionCount).map (reflectionPoint c reflectionCount)) ++
    [Piece.raw "\n  </g>"]

/-! ### Filters and water helpers (`src/generators/parts/filters.ts`) -/

def generateGlowFilter : Frag :=
  [Piece.raw "<filter id=\"fireworkGlow\" x=\"-100%\" y=\"-100%\" width=\"300%\" height=\"300%\">\n    <feGaussianBlur in=\"SourceGraphic\" stdDeviation=\"3\" result=\"blur\" />\n    <feColorMatrix in=\"blur\" type=\"saturate\" values=\"2\" result=\"saturated\" />\n    <feMerge>\n      <feMergeNode in=\"saturated\" />\n      <feMergeNode in=\"blur\" />\n      <feMergeNode in=\"SourceGraphic\" />\n    </feMerge>\n  </filter>"]

def generateWaterSurface (width waterY : ℚ) : Frag :=
  [Piece.raw ("<g class=\"water-surface\">\n    <line x1=\"0\" y1=\"" ++ fmtQ waterY ++
    "\" x2=\"" ++ fmtQ width ++ "\" y2=\"" ++ fmtQ waterY ++
    "\"\n          stroke=\"#3a5a8c\" stroke-width=\"2\" opacity=\"0.8\"/>\n    <rect x=\"0\" y=\"" ++
    fmtQ waterY ++ "\" width=\"" ++ fmtQ width ++
    "\" height=\"50\"\n          fill=\"url(#waterGradient)\" opacity=\"0.15\"/>\n  </g>")]

def generateWaterGradient : Frag :=
  [Piece.raw "<linearGradient id=\"waterGradient\" x1=\"0%\" y1=\"0%\" x2=\"0%\" y2=\"100%\">\n    <stop offset=\"0%\" style=\"stop-color:#0a1628;stop-opacity:0.6\"/>\n    <stop offset=\"100%\" style=\"stop-color:#061224;stop-opacity:0.3\"/>\n  </linearGradient>"]

/-! ### Sparkler effect (private helper of the matsuri theme module)

`generateSparklerEffect` is the single place in the generation layer that
calls the unseeded `Math.random()`; the stream is passed explicitly as
`mrand`, particle `i` consuming draw `mrand i` (the loop performs exactly one
draw per iteration). -/

structure SparklerConfig where
  cx : ℚ
  cy : ℚ
  particleCount : ℕ
  maxDistance : ℚ
  delay : ℚ
  loopInterval : ℚ

/-- One sparkler particle; its travel distance is jittered by `Math.random()`. -/
noncomputable def sparklerParticle (c : SparklerConfig) (mrand : ℕ → ℚ) (i : ℕ) :
    Frag :=
  let colorValue := FIREWORK_COLORS .orange
  let explosionStart := c.delay / c.loopInterval
  let explosionEnd := (c.delay + 2) / c.loopInterval
  let angle : ℝ := 2 * Real.pi * i / c.particleCount
  let distance : ℚ := c.maxDistance * (3/5 + mrand i * (2/5))
  let dx : ℤ := round (Real.cos angle * (distance : ℝ))
  let dy : ℤ := round (Real.sin angle * (distance : ℝ))
  let twinkleOffset : ℚ := i * (3/20 : ℚ) / c.loopInterval
  [Piece.raw ("    <circle cx=\"" ++ fmtQ c.cx ++ "\" cy=\"" ++ fmtQ c.cy ++
      "\" r=\"2\" fill=\"" ++ colorValue ++
      "\" filter=\"url(#fireworkGlow)\" opacity=\"0\">\n      "),
   Piece.anim true
     "<animateTransform attributeName=\"transform\"\n                        type=\"translate\"\n                        values=\""
     ["0 0", "0 0", intStr dx ++ " " ++ intStr dy, intStr dx ++ " " ++ intStr (dy + 15)]
     "\"\n                        keyTimes=\""
     (some ["0", jsToFixed 4 explosionStart, jsToFixed 4 ((c.delay + 1) / c.loopInterval),
       jsToFixed 4 explosionEnd])
     ("\"\n                        dur=\"" ++ fmtQ c.loopInterval ++
      "s\" begin=\"0s\"\n                        repeatCount=\"indefinite\" />\n      "),
   Piece.anim false
     "<animate attributeName=\"opacity\"\n               values=\""
     ["0", "0", "1", "0.8", "0.4", "0"]
     "\"\n               keyTimes=\""
     (some ["0", jsToFixed 4 (explosionStart + twinkleOffset),
       jsToFixed 4 ((c.delay + 1/5) / c.loopInterval + twinkleOffset),
       jsToFixed 4 ((c.delay + 4/5) / c.loopInterval),
       jsToFixed 4 ((c.delay + 3/2) / c.loopInterval),
       jsToFixed 4 explosionEnd])
     ("\"\n               dur=\"" ++ fmtQ c.loopInterval ++
      "s\" begin=\"0s\"\n               repeatCount=\"indefinite\" />\n      "),
   Piece.anim false
     "<animate attributeName=\"r\"\n               values=\""
     ["2", "2", "3", "2", "1"]
     "\"\n               keyTimes=\""
     (some ["0", jsToFixed 4 explosionStart,
       jsToFixed 4 ((c.delay + 3/10) / c.loopInterval),
       jsToFixed 4 ((c.delay + 1) / c.loopInterval),
       jsToFixed 4 explosionEnd])
     ("\"\n               dur=\"" ++ fmtQ c.loopInterval ++
      "s\" begin=\"0s\"\n               repeatCount=\"indefinite\" />\n    </circle>")]

/-- `generateSparklerEffect` (Senko Hanabi twinkling particles). -/
noncomputable def generateSparklerEffect (c : SparklerConfig) (mrand : ℕ → ℚ) : Frag :=
  [Piece.raw "<g id=\"matsuri1-sparkler\" class=\"sparkler-particles\">\n"] ++
    joinSep "\n" ((List.range c.particleCount).map (sparklerParticle c mrand)) ++
    [Piece.raw "\n  </g>"]

/-- The sparkler configuration matsuri level 1 passes at canvas 400x200:
`cx = round(400/2) = 200`, `cy = round(200*0.4) = 80`, 12 particles,
`maxDistance 25`, `delay 0.6`, `loopInterval 5`. -/
def sparklerBugConfig : SparklerConfig := ⟨200, 80, 12, 25, 3/5, 5⟩

/-- Closed form of sparkler particle 0 (angle 0, twinkle offset 0): its
translate values are determined by `d = round(distance)`, where the distance
is jittered by the `Math.random()` draw for particle 0. -/
def sparklerP0frag (c : SparklerConfig) (d : ℤ) : Frag :=
  [Piece.raw ("    <circle cx=\"" ++ fmtQ c.cx ++ "\" cy=\"" ++ fmtQ c.cy ++
      "\" r=\"2\" fill=\"" ++ FIREWORK_COLORS .orange ++
      "\" filter=\"url(#fireworkGlow)\" opacity=\"0\">\n      "),
   Piece.anim true
     "<animateTransform attributeName=\"transform\"\n                        type=\"translate\"\n                        values=\""
     ["0 0", "0 0", intStr d ++ " " ++ intStr 0, intStr d ++ " " ++ intStr 15]
     "\"\n                        keyTimes=\""
     (some ["0", jsToFixed 4 (c.delay / c.loopInterval),
       jsToFixed 4 ((c.delay + 1) / c.loopInterval),
       jsToFixed 4 ((c.delay + 2) / c.loopInterval)])
     ("\"\n                        dur=\"" ++ fmtQ c.loopInterval ++
      "s\" begin=\"0s\"\n                        repeatCount=\"indefinite\" />\n      "),
   Piece.anim false
     "<animate attributeName=\"opacity\"\n               values=\""
     ["0", "0", "1", "0.8", "0.4", "0"]
     "\"\n               keyTimes=\""
     (some ["0", jsToFixed 4 (c.delay / c.loopInterval),
       jsToFixed 4 ((c.delay + 1/5) / c.loopInterval),
       jsToFixed 4 ((c.delay + 4/5) / c.loopInterval),
       jsToFixed 4 ((c.delay + 3/2) / c.loopInterval),
       jsToFixed 4 ((c.delay + 2) / c.loopInterval)])
     ("\"\n               dur=\"" ++ fmtQ c.loopInterval ++
      "s\" begin=\"0s\"\n               repeatCount=\"indefinite\" />\n      "),
   Piece.anim false
     "<animate attributeName=\"r\"\n               values=\""
     ["2", "2", "3", "2", "1"]
     "\"\n               keyTimes=\""
     (some ["0", jsToFixed 4 (c.delay / c.loopInterval),
       jsToFixed 4 ((c.delay + 3/10) / c.loopInterval),
       jsToFixed 4 ((c.delay + 1) / c.loopInterval),
       jsToFixed 4 ((c.delay + 2) / c.loopInterval)])
     ("\"\n               dur=\"" ++ fmtQ c.loopInterval ++
      "s\" begin=\"0s\"\n               repeatCount=\"indefinite\" />\n    </circle>")]

/-! ### Visual effects (`src/generators/parts/effects.ts`) -/

/-- Threads the mulberry32 state through a list of item builders, collecting
the produced element fragments in order (the way the source closure advances
its state across loop iterations). -/
def statList (f : α → ℕ → List Frag × ℕ) : List α → ℕ → List Frag × ℕ
  | [], s => ([], s)
  | a :: l, s =>
    let (fs, s') := f a s
    let (rest, s'') := statList f l s'
    (fs ++ rest, s'')

structure BackgroundFireworksConfig where
  canvasWidth : ℕ
  canvasHeight : ℕ
  count : ℕ
  loopDuration : ℚ
  seed : ℕ

def bgColors : List FireworkColorName :=
  [.blue, .purple, .cyan, .pink, .green]

/-- Loop body of `generateBackgroundFireworks` at index `i`: one small trail
line plus six explosion circles; consumes three seeded draws. -/
noncomputable def bgFireworkItem (c : BackgroundFireworksConfig) (i : ℕ) (s0 : ℕ) :
    List Frag × ℕ :=
  let (s1, xRatio) := mulberryNext s0
  let x : ℤ := round ((c.canvasWidth : ℚ) *
    (if xRatio < 1/2 then xRatio * (35/100) else 65/100 + xRatio * (35/100)))
  let (s2, yr) := mulberryNext s1
  let y : ℤ := round ((c.canvasHeight : ℚ) * (1/5 + yr * (2/5)))
  let delay : ℚ := ((i : ℚ) / c.count) * c.loopDuration * (4/5)
  let trailDuration : ℚ := 2/5
  let explosionDelay := delay + trailDuration
  let explosionDuration : ℚ := 1/2
  let color := bgColors.get! (i % bgColors.length)
  let colorValue := FIREWORK_COLORS color
  let particleCount : ℕ := 6
  let (s3, dr) := mulberryNext s2
  let distance : ℚ := 20 + round (dr * 15)
  let trailEnd := (delay + trailDuration) / c.loopDuration
  let fadeEnd := min ((delay + trailDuration + 1/5) / c.loopDuration) (99/100)
  let startY : ℚ := c.canvasHeight
  let line : Frag :=
    [Piece.raw ("<line x1=\"" ++ intStr x ++ "\" y1=\"" ++ fmtQ startY ++
        "\" x2=\"" ++ intStr x ++ "\" y2=\"" ++ fmtQ startY ++
        "\"\n      stroke=\"" ++ colorValue ++
        "\" stroke-width=\"1\" stroke-linecap=\"round\" opacity=\"0\">\n    "),
     Piece.anim false "<animate attributeName=\"y2\"\n             values=\""
       [fmtQ startY, fmtQ startY, intStr y, intStr y]
       "\"\n             keyTimes=\""
       (some ["0", jsToFixed 4 (delay / c.loopDuration), jsToFixed 4 trailEnd, "1"])
       ("\"\n             dur=\"" ++ fmtQ c.loopDuration ++
        "s\" begin=\"0s\" repeatCount=\"indefinite\" />\n    "),
     Piece.anim false "<animate attributeName=\"opacity\"\n             values=\""
       ["0", "0", "0.6", "0.3", "0", "0"]
       "\"\n             keyTimes=\""
       (some ["0", jsToFixed 4 (delay / c.loopDuration),
         jsToFixed 4 ((delay + 1/20) / c.loopDuration),
         jsToFixed 4 trailEnd, jsToFixed 4 fadeEnd, "1"])
       ("\"\n             dur=\"" ++ fmtQ c.loopDuration ++
        "s\" begin=\"0s\" repeatCount=\"indefinite\" />\n  </line>")]
  let expStart := explosionDelay / c.loopDuration
  let expEnd := (explosionDelay + explosionDuration) / c.loopDuration
  let circles : List Frag := (List.range particleCount).map fun j : ℕ =>
    let angle : ℝ := 2 * Real.pi * (j : ℝ) / (particleCount : ℝ)
    let dx : ℤ := round (Real.cos angle * (distance : ℝ))
    let dy : ℤ := round (Real.sin angle * (distance : ℝ))
    [Piece.raw ("<circle cx=\"" ++ intStr x ++ "\" cy=\"" ++ intStr y ++
        "\" r=\"1.5\" fill=\"" ++ colorValue ++ "\" opacity=\"0\">\n      "),
     Piece.anim true
       "<animateTransform attributeName=\"transform\" type=\"translate\"\n                        values=\""
       ["0 0", "0 0", intStr dx ++ " " ++ intStr dy, intStr dx ++ " " ++ intStr dy]
       "\"\n                        keyTimes=\""
       (some ["0", jsToFixed 4 expStart, jsToFixed 4 expEnd, "1"])
       ("\"\n                        dur=\"" ++ fmtQ c.loopDuration ++
        "s\" begin=\"0s\" repeatCount=\"indefinite\" />\n      "),
     Piece.anim false "<animate attributeName=\"opacity\"\n               values=\""
       ["0", "0", "0.7", "0", "0"]
       "\"\n               keyTimes=\""
       (some ["0", jsToFixed 4 expStart,
         jsToFixed 4 ((explosionDelay + 2/25) / c.loopDuration),
         jsToFixed 4 expEnd, "1"])
       ("\"\n               dur=\"" ++ fmtQ c.loopDuration ++
        "s\" begin=\"0s\" repeatCount=\"indefinite\" />\n    </circle>")]
  (line :: circles, s3)

/-- `generateBackgroundFireworks`: ambient small trail+burst pairs. -/
noncomputable def generateBackgroundFireworks (c : BackgroundFireworksConfig) : Frag :=
  let (elements, _) := statList (bgFireworkItem c) (List.range c.count) c.seed
  [Piece.raw "<g class=\"background-fireworks\" opacity=\"0.6\">\n  "] ++
    joinSep "\n  " elements ++
    [Piece.raw "\n</g>"]

inductive NiagaraColorPattern where
  | rainbow | gold | sakura | ocean | sunset
deriving DecidableEq, Repr, Inhabited

def NIAGARA_PATTERNS : NiagaraColorPattern → List String
  | .rainbow => ["#f85149", "#f0883e", "#d29922", "#39d353", "#58a6ff", "#bc8cff"]
  | .gold => ["#ffd700", "#f7e7ce", "#ffffff"]
  | .sakura => ["#f778ba", "#ffb7c5", "#ffffff"]
  | .ocean => ["#39c5cf", "#58a6ff", "#bc8cff"]
  | .sunset => ["#f85149", "#f0883e", "#d29922"]

def NIAGARA_PATTERN_NAMES : List NiagaraColorPattern :=
  [.rainbow, .gold, .sakura, .ocean, .sunset]

structure NiagaraEffectConfig where
  canvasWidth : ℕ
  canvasHeight : ℕ
  loopDuration : ℚ
  colorPattern : Option NiagaraColorPattern
  seed : Option ℕ

/-- Background glow stream of the Niagara effect (layer 1, even indices);
consumes four seeded draws. -/
def niagaraLayer1Item (wireY : ℤ) (streamHeight : ℚ) (seed : ℕ)
    (colorGradientId glowId : String) (i : ℕ) (s0 : ℕ) : List Frag × ℕ :=
  let x : ℚ := i * 3 + 3/2
  let (s1, r1) := mulberryNext s0
  let xOffset := (r1 - 1/2) * 4
  let actualX := x + xOffset
  let (s2, r2) := mulberryNext s1
  let actualHeight := streamHeight * (9/10 + r2 * (1/5))
  let delay : ℚ := (i % 12 : ℕ) * (3/100)
  let (s3, r3) := mulberryNext s2
  let animDuration := 3/5 + r3 * (3/10)
  let (s4, r4) := mulberryNext s3
  ([[Piece.raw ("<line x1=\"" ++ fmtQ actualX ++ "\" y1=\"" ++ intStr wireY ++
      "\" x2=\"" ++ fmtQ (actualX + (r4 - 1/2) * 6) ++ "\" y2=\"" ++
      fmtQ ((wireY : ℚ) + actualHeight) ++
      "\"\n      stroke=\"url(#" ++ colorGradientId ++
      ")\" stroke-width=\"4\" stroke-linecap=\"round\"\n      stroke-dasharray=\"30 5\"\n      mask=\"url(#niagaraMask-" ++
      Nat.repr seed ++ ")\"\n      opacity=\"0.4\"\n      filter=\"url(#" ++ glowId ++
      ")\">\n      "),
    Piece.anim false "<animate attributeName=\"stroke-dashoffset\"\n               values=\""
      ["50", "0"]
      ("\"\n               dur=\"" ++ fmtQ (animDuration * (3/2)) ++
       "s\"\n               begin=\"" ++ fmtQ delay ++
       "s\"\n               repeatCount=\"indefinite\"/>\n    </line>")
      none ""]], s4)

/-- Core flowing stream of the Niagara effect (layer 2, every index);
consumes six seeded draws. -/
def niagaraLayer2Item (wireY : ℤ) (streamHeight : ℚ) (seed : ℕ)
    (colorGradientId : String) (i : ℕ) (s0 : ℕ) : List Frag × ℕ :=
  let x : ℚ := i * 3 + 3/2
  let (s1, r1) := mulberryNext s0
  let xOffset := (r1 - 1/2) * 2
  let actualX := x + xOffset
  let (s2, r2) := mulberryNext s1
  let actualHeight := streamHeight * (17/20 + r2 * (3/10))
  let (s3, r3) := mulberryNext s2
  let delay : ℚ := (i % 8 : ℕ) * (1/25) + r3 * (2/25)
  let (s4, r4) := mulberryNext s3
  let strokeWidth := 3/2 + r4 * (3/2)
  let (s5, r5) := mulberryNext s4
  let animDuration := 1/2 + r5 * (3/10)
  let (s6, r6) := mulberryNext s5
  ([[Piece.raw ("<line x1=\"" ++ fmtQ actualX ++ "\" y1=\"" ++ intStr wireY ++
      "\" x2=\"" ++ fmtQ (actualX + (r6 - 1/2) * 3) ++ "\" y2=\"" ++
      fmtQ ((wireY : ℚ) + actualHeight) ++
      "\"\n      stroke=\"url(#" ++ colorGradientId ++ ")\" stroke-width=\"" ++
      fmtQ strokeWidth ++
      "\" stroke-linecap=\"round\"\n      stroke-dasharray=\"20 5\"\n      mask=\"url(#niagaraMask-" ++
      Nat.repr seed ++ ")\"\n      opacity=\"0.9\">\n      "),
    Piece.anim false "<animate attributeName=\"stroke-dashoffset\"\n               values=\""
      ["25", "0"]
      ("\"\n               dur=\"" ++ fmtQ animDuration ++
       "s\"\n               begin=\"" ++ fmtQ delay ++
       "s\"\n               repeatCount=\"indefinite\"/>\n    </line>")
      none ""]], s6)

/-- Bright highlight stream of the Niagara effect (layer 3, every fourth
index); consumes four seeded draws. -/
def niagaraLayer3Item (wireY : ℤ) (streamHeight : ℚ) (seed : ℕ) (i : ℕ) (s0 : ℕ) :
    List Frag × ℕ :=
  let x : ℚ := i * 3 + 3/2 + 1
  let (s1, r1) := mulberryNext s0
  let actualHeight := streamHeight * (7/10 + r1 * (1/5))
  let (s2, r2) := mulberryNext s1
  let delay := r2 * (1/2)
  let (s3, r3) := mulberryNext s2
  let animDuration := 2/5 + r3 * (1/5)
  let (s4, r4) := mulberryNext s3
  ([[Piece.raw ("<line x1=\"" ++ fmtQ x ++ "\" y1=\"" ++ intStr wireY ++
      "\" x2=\"" ++ fmtQ (x + (r4 - 1/2) * 2) ++ "\" y2=\"" ++
      fmtQ ((wireY : ℚ) + actualHeight) ++
      "\"\n      stroke=\"#ffffff\" stroke-width=\"1\" stroke-linecap=\"round\"\n      stroke-dasharray=\"14 7.5\"\n      mask=\"url(#niagaraMask-" ++
      Nat.repr seed ++ ")\"\n      opacity=\"0.8\">\n      "),
    Piece.anim false "<animate attributeName=\"stroke-dashoffset\"\n               values=\""
      ["25", "0"]
      ("\"\n               dur=\"" ++ fmtQ animDuration ++
       "s\"\n               begin=\"" ++ fmtQ delay ++
       "s\"\n               repeatCount=\"indefinite\"/>\n    </line>")
      none ""]], s4)

/-- Falling spark of the Niagara effect (layer 4, even indices); consumes
seven seeded draws. -/
def niagaraLayer4Item (wireY : ℤ) (streamHeight loopDuration : ℚ)
    (colors : List String) (i : ℕ) (s0 : ℕ) : List Frag × ℕ :=
  let x : ℚ := i * 3 + 3/2
  let (s1, r1) := mulberryNext s0
  let color := colors.getD (⌊r1 * colors.length⌋).toNat ""
  let (s2, r2) := mulberryNext s1
  let sparkDelay := r2 * loopDuration
  let actualHeight := streamHeight * (4/5)
  let (s3, r3) := mulberryNext s2
  let animDuration := 4/5 + r3 * (2/5)
  let (s4, r4) := mulberryNext s3
  let xDrift := (r4 - 1/2) * 8
  let (s5, r5) := mulberryNext s4
  let (s6, r6) := mulberryNext s5
  let (s7, r7) := mulberryNext s6
  ([[Piece.raw ("<circle cx=\"" ++ fmtQ x ++ "\" cy=\"" ++ intStr wireY ++
      "\" r=\"" ++ fmtQ (3/2 + r5) ++ "\" fill=\"" ++ color ++
      "\" opacity=\"0\">\n      "),
    Piece.anim false "<animate attributeName=\"cy\"\n               values=\""
      [intStr wireY, fmtQ ((wireY : ℚ) + actualHeight)]
      ("\"\n               dur=\"" ++ fmtQ animDuration ++
       "s\"\n               begin=\"" ++ fmtQ sparkDelay ++
       "s\"\n               repeatCount=\"indefinite\"/>\n      ")
      none "",
    Piece.anim false "<animate attributeName=\"cx\"\n               values=\""
      [fmtQ x, fmtQ (x + xDrift)]
      ("\"\n               dur=\"" ++ fmtQ animDuration ++
       "s\"\n               begin=\"" ++ fmtQ sparkDelay ++
       "s\"\n               repeatCount=\"indefinite\"/>\n      ")
      none "",
    Piece.anim false "<animate attributeName=\"opacity\"\n               values=\""
      ["0", "1", "0.8", "0.3", "0"]
      "\"\n               keyTimes=\""
      (some ["0", "0.05", "0.3", "0.7", "1"])
      ("\"\n               dur=\"" ++ fmtQ animDuration ++
       "s\"\n               begin=\"" ++ fmtQ sparkDelay ++
       "s\"\n               repeatCount=\"indefinite\"/>\n      "),
    Piece.anim false "<animate attributeName=\"r\"\n               values=\""
      [fmtQ (3/2 + r6), fmtQ (2 + r7), fmtQ (1/2 : ℚ)]
      "\"\n               keyTimes=\""
      (some ["0", "0.2", "1"])
      ("\"\n               dur=\"" ++ fmtQ animDuration ++
       "s\"\n               begin=\"" ++ fmtQ sparkDelay ++
       "s\"\n               repeatCount=\"indefinite\"/>\n    </circle>")]], s7)

/-- `generateNiagaraEffect`: the waterfall-cascade extra effect.  The seed
defaults to the constant `42`; the color pattern is drawn from the seeded
stream when not specified. -/
def generateNiagaraEffect (c : NiagaraEffectConfig) : Frag :=
  let seed := c.seed.getD 42
  let s0 := seed
  let (patternName, s0) := match c.colorPattern with
    | some p => (p, s0)
    | none =>
      let (s1, r) := mulberryNext s0
      (NIAGARA_PATTERN_NAMES.getD (⌊r * NIAGARA_PATTERN_NAMES.length⌋).toNat .rainbow, s1)
  let colors := NIAGARA_PATTERNS patternName
  let wireY : ℤ := ⌊(c.canvasHeight : ℚ) * (1/2)⌋
  let streamCount : ℕ := c.canvasWidth / 3
  let streamHeight : ℚ := (c.canvasHeight : ℚ) * (1/2)
  let glowId := "niagaraGlow-" ++ Nat.repr seed
  let gradientId := "niagaraFade-" ++ Nat.repr seed
  let colorGradientId := "niagaraColor-" ++ Nat.repr seed
  let colorStops := String.intercalate "\n      "
    (colors.mapIdx fun i color =>
      "<stop offset=\"" ++ fmtQ ((i : ℚ) / (colors.length - 1 : ℕ) * 100) ++
        "%\" stop-color=\"" ++ color ++ "\"/>")
  let defsEl : Frag :=
    [Piece.raw ("<defs>\n    <filter id=\"" ++ glowId ++
      "\" x=\"-50%\" y=\"-50%\" width=\"200%\" height=\"200%\">\n      <feGaussianBlur in=\"SourceGraphic\" stdDeviation=\"3\" result=\"blur\"/>\n      <feMerge>\n        <feMergeNode in=\"blur\"/>\n        <feMergeNode in=\"blur\"/>\n        <feMergeNode in=\"SourceGraphic\"/>\n      </feMerge>\n    </filter>\n    <linearGradient id=\"" ++
      colorGradientId ++ "\" x1=\"0%\" y1=\"0%\" x2=\"0%\" y2=\"100%\">\n      " ++
      colorStops ++ "\n    </linearGradient>\n    <linearGradient id=\"" ++ gradientId ++
      "\" x1=\"0%\" y1=\"0%\" x2=\"0%\" y2=\"100%\">\n      <stop offset=\"0%\" stop-color=\"white\" stop-opacity=\"1\"/>\n      <stop offset=\"40%\" stop-color=\"white\" stop-opacity=\"0.9\"/>\n      <stop offset=\"80%\" stop-color=\"white\" stop-opacity=\"0.4\"/>\n      <stop offset=\"100%\" stop-color=\"white\" stop-opacity=\"0\"/>\n    </linearGradient>\n    <mask id=\"niagaraMask-" ++
      Nat.repr seed ++ "\">\n      <rect x=\"0\" y=\"" ++ intStr wireY ++
      "\" width=\"" ++ Nat.repr c.canvasWidth ++ "\" height=\"" ++
      fmtQ (streamHeight + 20) ++ "\" fill=\"url(#" ++ gradientId ++
      ")\"/>\n    </mask>\n  </defs>")]
  let wire1 : Frag :=
    [Piece.raw ("<line x1=\"-10\" y1=\"" ++ intStr wireY ++ "\" x2=\"" ++
      Nat.repr (c.canvasWidth + 10) ++ "\" y2=\"" ++ intStr wireY ++
      "\"\n    stroke=\"" ++ colors.getD 0 "" ++
      "\" stroke-width=\"4\" opacity=\"1\" filter=\"url(#" ++ glowId ++ ")\">\n    "),
     Piece.anim false "<animate attributeName=\"opacity\" values=\""
       ["0.8", "1", "0.8"]
       "\" dur=\"0.3s\" repeatCount=\"indefinite\"/>\n  </line>"
       none ""]
  let wire2 : Frag :=
    [Piece.raw ("<line x1=\"-10\" y1=\"" ++ intStr wireY ++ "\" x2=\"" ++
      Nat.repr (c.canvasWidth + 10) ++ "\" y2=\"" ++ intStr wireY ++
      "\"\n    stroke=\"#ffffff\" stroke-width=\"2\" opacity=\"0.9\">\n    "),
     Piece.anim false "<animate attributeName=\"opacity\" values=\""
       ["0.7", "1", "0.7"]
       "\" dur=\"0.2s\" repeatCount=\"indefinite\"/>\n  </line>"
       none ""]
  let (layer1, s0) := statList
    (niagaraLayer1Item wireY streamHeight seed colorGradientId glowId)
    (List.range' 0 ((streamCount + 1) / 2) 2) s0
  let (layer2, s0) := statList
    (niagaraLayer2Item wireY streamHeight seed colorGradientId)
    (List.range streamCount) s0
  let (layer3, s0) := statList
    (niagaraLayer3Item wireY streamHeight seed)
    (List.range' 0 ((streamCount + 3) / 4) 4) s0
  let (layer4, _) := statList
    (niagaraLayer4Item wireY streamHeight c.loopDuration colors)
    (List.range' 0 ((streamCount + 1) / 2) 2) s0
  let elements := [defsEl, wire1, wire2] ++ layer1 ++ layer2 ++ layer3 ++ layer4
  [Piece.raw "<g class=\"niagara-effect\">\n  "] ++
    joinSep "\n  " elements ++
    [Piece.raw "\n</g>"]

/-! ### Night sky background (`src/generators/svg-background.ts`) -/

/-- `generateBackground`: gradient definition plus full-canvas rectangle. -/
def generateBackground (width height : ℕ) : Frag :=
  [Piece.raw ("<defs>\n    <linearGradient id=\"nightSkyGradient\" x1=\"0%\" y1=\"0%\" x2=\"0%\" y2=\"100%\">\n      <stop offset=\"0%\" style=\"stop-color:#0d1117\" />\n      <stop offset=\"100%\" style=\"stop-color:#161b22\" />\n    </linearGradient>\n  </defs>\n  <rect width=\"" ++
    Nat.repr width ++ "\" height=\"" ++ Nat.repr height ++
    "\" fill=\"url(#nightSkyGradient)\" />")]

/-- One star of `generateStars`; consumes three seeded draws (position x,
position y, animation start stagger). -/
def starItem (width height : ℕ) (_i : ℕ) (s0 : ℕ) : List Frag × ℕ :=
  let (s1, r1) := mulberryNext s0
  let cx : ℤ := ⌊r1 * width⌋
  let (s2, r2) := mulberryNext s1
  let cy : ℤ := ⌊r2 * height⌋
  let (s3, r3) := mulberryNext s2
  let beginTime := jsToFixed 1 (r3 * 2)
  ([[Piece.raw ("<circle cx=\"" ++ (intStr cx ++ ("\" cy=\"" ++ (intStr cy ++
      "\" r=\"2\" fill=\"#8b949e\">\n      ")))),
    Piece.anim false "<animate attributeName=\"opacity\" values=\""
      ["0.3", "1", "0.3"]
      ("\" dur=\"2s\" begin=\"" ++ beginTime ++
       "s\" repeatCount=\"indefinite\" />\n    </circle>")
      none ""]], s3)

/-- `generateStars`: the twinkling star field (25 stars, or 35 at the
legendary level), positioned by the seeded PRNG. -/
def generateStars (isLegendary : Bool) (seed width height : ℕ) : Frag :=
  let starCount : ℕ := if isLegendary then 35 else 25
  let (stars, _) := statList (starItem width height) (List.range starCount) seed
  joinSep "\n    " stars

/-- `generateNightSky`: gradient background plus star field, seeded from the
username hash. -/
def generateNightSky (level : FireworksLevel) (username : String)
    (width height : ℕ) : Frag :=
  let isLegendary := level = .l5
  let seed := stringToSeed username
  [Piece.raw "<g id=\"night-sky\">\n    "] ++
    generateBackground width height ++
    [Piece.raw "\n    "] ++
    generateStars isLegendary seed width height ++
    [Piece.raw "\n  </g>"]

/-! ### User overlay (`src/generators/svg-overlay.ts`) -/

/-- Sequential global replacements of `escapeXml` for the five XML special
characters. -/
def escapeXml (text : String) : String :=
  ((((text.replace "&" "&amp;").replace "<" "&lt;").replace ">" "&gt;").replace
    "\"" "&quot;").replace (String.mk [Char.ofNat 39]) "&apos;"

/-- `getCommitText`: singular/plural commit-count grammar. -/
def getCommitText (commits : ℤ) : String :=
  if commits = 1 then intStr commits ++ " commit" else intStr commits ++ " commits"

def FONT_FAMILY : String :=
  "-apple-system, BlinkMacSystemFont, \x27Segoe UI\x27, Helvetica, Arial, sans-serif"

def generateShadowFilter : String :=
  "<filter id=\"textShadow\" x=\"-20%\" y=\"-20%\" width=\"140%\" height=\"140%\">\n      <feDropShadow dx=\"0\" dy=\"1\" stdDeviation=\"2\" flood-color=\"#000000\" flood-opacity=\"0.8\" />\n    </filter>"

/-- `generateUserOverlay`: username, commit count and level name texts.
The `isExtra` cascade label is modelled from the spec: the overlay variant
accepting the extra-effect flag is not among the packaged sources (only its
caller and tests are); per the spec the overlay carries an "optional cascade
label" when the extra effect is requested. -/
def generateUserOverlay (username : String) (commits : ℤ) (levelName : String)
    (width height : ℕ) (isExtra : Bool) : Frag :=
  let safeUsername := escapeXml username
  let commitText := getCommitText commits
  let safeLevelName := escapeXml levelName
  let bottomY : ℤ := (height : ℤ) - 12
  let cascadeLabel := if isExtra then
      "\n    <text x=\"" ++ Nat.repr (width - 12) ++
        "\" y=\"45\"\n          font-family=\"" ++ FONT_FAMILY ++
        "\"\n          font-size=\"12\"\n          fill=\"#ffffff\"\n          text-anchor=\"end\"\n          filter=\"url(#textShadow)\">\n      加茂川\n    </text>"
    else ""
  [Piece.raw ("<g id=\"user-overlay\">\n    <defs>\n      " ++ generateShadowFilter ++
    "\n    </defs>\n    <text x=\"12\" y=\"" ++ intStr bottomY ++
    "\"\n          font-family=\"" ++ FONT_FAMILY ++
    "\"\n          font-size=\"14\"\n          fill=\"#ffffff\"\n          filter=\"url(#textShadow)\">\n      " ++
    safeUsername ++ "\n    </text>\n    <text x=\"12\" y=\"" ++
    intStr (bottomY - 14 - 4) ++ "\"\n          font-family=\"" ++ FONT_FAMILY ++
    "\"\n          font-size=\"12\"\n          fill=\"#ffffff\"\n          filter=\"url(#textShadow)\">\n      " ++
    commitText ++ "\n    </text>\n    <text x=\"" ++ Nat.repr (width - 12) ++
    "\" y=\"25\"\n          font-family=\"" ++ FONT_FAMILY ++
    "\"\n          font-size=\"14\"\n          fill=\"#ffffff\"\n          text-anchor=\"end\"\n          filter=\"url(#textShadow)\">\n      " ++
    safeLevelName ++ "\n    </text>" ++ cascadeLabel ++ "\n  </g>")]

/-! ### Kata theme levels (`src/generators/themes/kata-levels.ts`) -/

structure LevelConfig where
  canvasWidth : ℕ
  canvasHeight : ℕ

/-- Kata level 1: 和火 — one trail, spark, and radial burst. -/
noncomputable def generateKataLevel1 (c : LevelConfig) : Frag :=
  let x : ℤ := round ((c.canvasWidth : ℚ) * (1/2))
  let startY : ℚ := c.canvasHeight
  let explosionY : ℤ := round ((c.canvasHeight : ℚ) * (38/100))
  [Piece.raw "<g id=\"firework-kata-level-1\">\n  <defs>\n    "] ++
    generateGlowFilter ++ [Piece.raw "\n  </defs>\n  "] ++
    generateThemeTrail ⟨x, startY, explosionY, .wabi, 3/5, 0, 4, some "kata1-trail"⟩ ++
    [Piece.raw "\n  "] ++
    generateSpark x explosionY .wabi (3/5) 4 ++
    [Piece.raw "\n  "] ++
    generateThemeParticles ⟨x, explosionY, 10, 35, .wabi, 6/5, 3/5, 4, true,
      some "kata1-particles", 3⟩ ++
    [Piece.raw "\n</g>"]

/-- Choreography row shared by the table-driven levels. -/
structure FwRow where
  pos : ℚ
  delay : ℚ
  color : FireworkColorName
  count : ℕ

/-- Kata level 2: 牡丹 — two peony bursts. -/
noncomputable def generateKataLevel2 (c : LevelConfig) : Frag :=
  let fireworks : List FwRow :=
    [⟨35/100, 0, .pink, 14⟩, ⟨65/100, 1/2, .sakura, 14⟩]
  let startY : ℚ := c.canvasHeight
  let explosionY : ℤ := round ((c.canvasHeight : ℚ) * (35/100))
  let elements := fireworks.mapIdx fun i fw =>
    let x : ℤ := round ((c.canvasWidth : ℚ) * fw.pos)
    let explosionDelay := fw.delay + 3/5
    generateThemeTrail ⟨x, startY, explosionY, fw.color, 3/5, fw.delay, 7/2,
        some ("kata2-trail-" ++ Nat.repr i)⟩ ::
      generateSpark x explosionY fw.color explosionDelay (7/2) ::
      [generateThemeParticles ⟨x, explosionY, fw.count, 55, fw.color, 7/10,
        explosionDelay, 7/2, true, some ("kata2-particles-" ++ Nat.repr i), 4⟩]
  [Piece.raw "<g id=\"firework-kata-level-2\">\n  <defs>\n    "] ++
    generateGlowFilter ++ [Piece.raw "\n  </defs>\n  "] ++
    joinSep "\n  " elements.flatten ++
    [Piece.raw "\n</g>"]

/-- Kata level 3: 蜂 — three rotating bursts. -/
noncomputable def generateKataLevel3 (c : LevelConfig) : Frag :=
  let fireworks : List FwRow :=
    [⟨1/2, 0, .yellow, 0⟩, ⟨1/4, 1/2, .orange, 0⟩, ⟨3/4, 9/10, .yellow, 0⟩]
  let startY : ℚ := c.canvasHeight
  let explosionY : ℤ := round ((c.canvasHeight : ℚ) * (35/100))
  let elements := fireworks.mapIdx fun i fw =>
    let x : ℤ := round ((c.canvasWidth : ℚ) * fw.pos)
    let explosionDelay := fw.delay + 3/5
    generateThemeTrail ⟨x, startY, explosionY, fw.color, 3/5, fw.delay, 4,
        some ("kata3-trail-" ++ Nat.repr i)⟩ ::
      generateSpark x explosionY fw.color explosionDelay 4 ::
      [generateRotatingParticles ⟨x, explosionY, 16, 60, fw.color, 1,
        explosionDelay, 4, 540, true, some ("kata3-rotating-" ++ Nat.repr i)⟩]
  [Piece.raw "<g id=\"firework-kata-level-3\">\n  <defs>\n    "] ++
    generateGlowFilter ++ [Piece.raw "\n  </defs>\n  "] ++
    joinSep "\n  " elements.flatten ++
    [Piece.raw "\n</g>"]

/-- Choreography row of kata level 4 (position ratio, delay, y offset). -/
structure Fw4Row where
  pos : ℚ
  delay : ℚ
  yOffset : ℤ

/-- Kata level 4: 冠菊 — five gold gravity bursts. -/
noncomputable def generateKataLevel4 (c : LevelConfig) : Frag :=
  let fireworks : List Fw4Row :=
    [⟨1/2, 0, 0⟩, ⟨1/5, 3/10, 10⟩, ⟨4/5, 1/2, 10⟩, ⟨35/100, 4/5, 5⟩, ⟨65/100, 1, 5⟩]
  let startY : ℚ := c.canvasHeight
  let baseExplosionY : ℤ := round ((c.canvasHeight : ℚ) * (32/100))
  let elements := fireworks.mapIdx fun i fw =>
    let x : ℤ := round ((c.canvasWidth : ℚ) * fw.pos)
    let explosionY := baseExplosionY + fw.yOffset
    let explosionDelay := fw.delay + 3/5
    generateThemeTrail ⟨x, startY, explosionY, .gold, 3/5, fw.delay, 9/2,
        some ("kata4-trail-" ++ Nat.repr i)⟩ ::
      generateSpark x explosionY .champagne explosionDelay (9/2) ::
      [generateGravityParticles ⟨x, explosionY, if i = 0 then 20 else 14,
        if i = 0 then 70 else 50, .gold, 7/5, explosionDelay, 9/2, 45, true,
        some ("kata4-gravity-" ++ Nat.repr i)⟩]
  [Piece.raw "<g id=\"firework-kata-level-4\">\n  <defs>\n    "] ++
    generateGlowFilter ++ [Piece.raw "\n  </defs>\n  "] ++
    joinSep "\n  " elements.flatten ++
    [Piece.raw "\n</g>"]

/-- Surrounding-burst row of kata level 5 (position ratio, delay, color). -/
structure Fw5Row where
  pos : ℚ
  delay : ℚ
  color : FireworkColorName

/-- Kata level 5: 錦冠千輪 — gold/silver main burst plus eight small bursts. -/
noncomputable def generateKataLevel5 (c : LevelConfig) : Frag :=
  let centerX : ℤ := round ((c.canvasWidth : ℚ) * (1/2))
  let startY : ℚ := c.canvasHeight
  let mainExplosionY : ℤ := round ((c.canvasHeight : ℚ) * (30/100))
  let surroundingFireworks : List Fw5Row :=
    [⟨15/100, 1/5, .champagne⟩, ⟨85/100, 3/10, .silver⟩, ⟨1/4, 1/2, .gold⟩,
     ⟨3/4, 3/5, .champagne⟩, ⟨35/100, 4/5, .silver⟩, ⟨65/100, 9/10, .gold⟩,
     ⟨1/10, 11/10, .champagne⟩, ⟨9/10, 6/5, .silver⟩]
  let surroundingElements := surroundingFireworks.mapIdx fun i fw =>
    let x : ℤ := round ((c.canvasWidth : ℚ) * fw.pos)
    let yOffset : ℤ := (i % 2 : ℕ) * 15 - 5
    let explosionY := mainExplosionY + yOffset
    let explosionDelay := fw.delay + 3/5
    generateThemeTrail ⟨x, startY, explosionY, fw.color, 3/5, fw.delay, 5,
        some ("kata5-surround-trail-" ++ Nat.repr i)⟩ ::
      [generateThemeParticles ⟨x, explosionY, 10, 35, fw.color, 7/10,
        explosionDelay, 5, true, some ("kata5-surround-particles-" ++ Nat.repr i), 2⟩]
  [Piece.raw "<g id=\"firework-kata-level-5\">\n  <defs>\n    "] ++
    generateGlowFilter ++ [Piece.raw "\n  </defs>\n  "] ++
    generateThemeTrail ⟨centerX, startY, mainExplosionY, .gold, 3/5, 0, 5,
      some "kata5-main-trail"⟩ ++
    [Piece.raw "\n  "] ++
    generateSpark centerX mainExplosionY .white (3/5) 5 ++
    [Piece.raw "\n  "] ++
    generateGravityParticles ⟨centerX, mainExplosionY, 24, 85, .gold, 8/5, 3/5, 5,
      50, true, some "kata5-main-gravity"⟩ ++
    [Piece.raw "\n  "] ++
    generateThemeParticles ⟨centerX, mainExplosionY, 16, 45, .silver, 4/5,
      3/5 + 1/10, 5, true, some "kata5-silver", 3⟩ ++
    [Piece.raw "\n  "] ++
    joinSep "\n  " surroundingElements.flatten ++
    [Piece.raw "\n</g>"]

/-! ### Matsuri theme levels (`src/generators/themes/matsuri-levels.ts`)

The module's private `generateTrail`/`generateParticles` helpers are
textually identical to `generateThemeTrail`/`generateThemeParticles` and are
embedded by those definitions. -/

/-- Matsuri level 1: 線香花火 — trail plus the `Math.random()`-jittered
sparkler effect. -/
noncomputable def generateMatsuriLevel1 (c : LevelConfig) (mrand : ℕ → ℚ) : Frag :=
  let x : ℤ := round ((c.canvasWidth : ℚ) * (1/2))
  let startY : ℚ := c.canvasHeight
  let explosionY : ℤ := round ((c.canvasHeight : ℚ) * (40/100))
  [Piece.raw "<g id=\"firework-matsuri-level-1\">\n  <defs>\n    "] ++
    generateGlowFilter ++ [Piece.raw "\n  </defs>\n  "] ++
    generateThemeTrail ⟨x, startY, explosionY, .orange, 3/5, 0, 5,
      some "matsuri1-trail"⟩ ++
    [Piece.raw "\n  "] ++
    generateSparklerEffect ⟨x, explosionY, 12, 25, 3/5, 5⟩ mrand ++
    [Piece.raw "\n</g>"]

/-- Matsuri level 2: 隅田川 — heart- and star-shaped bursts. -/
noncomputable def generateMatsuriLevel2 (c : LevelConfig) : Frag :=
  let startY : ℚ := c.canvasHeight
  let explosionY : ℤ := round ((c.canvasHeight : ℚ) * (35/100))
  let heartX : ℤ := round ((c.canvasWidth : ℚ) * (35/100))
  let heartPositions := getHeartPositions 20 (5/2)
  let starX : ℤ := round ((c.canvasWidth : ℚ) * (65/100))
  let starPositions := getStarPositions 20 50 25
  [Piece.raw "<g id=\"firework-matsuri-level-2\">\n  <defs>\n    "] ++
    generateGlowFilter ++ [Piece.raw "\n  </defs>\n  "] ++
    generateThemeTrail ⟨heartX, startY, explosionY, .crimson, 3/5, 0, 4,
      some "matsuri2-heart-trail"⟩ ++
    [Piece.raw "\n  "] ++
    generateSpark heartX explosionY .pink (3/5) 4 ++
    [Piece.raw "\n  "] ++
    generateShapedParticles ⟨heartX, explosionY, heartPositions, .crimson, 1, 3/5,
      4, true, some "matsuri2-heart-particles", 3⟩ ++
    [Piece.raw "\n  "] ++
    generateThemeTrail ⟨starX, startY, (explosionY : ℚ) + 5, .yellow, 3/5, 3/5, 4,
      some "matsuri2-star-trail"⟩ ++
    [Piece.raw "\n  "] ++
    generateSpark starX ((explosionY : ℚ) + 5) .champagne (3/5 + 3/5) 4 ++
    [Piece.raw "\n  "] ++
    generateShapedParticles ⟨starX, (explosionY : ℚ) + 5, starPositions, .yellow, 1,
      3/5 + 3/5, 4, true, some "matsuri2-star-particles", 3⟩ ++
    [Piece.raw "\n</g>"]

/-- Matsuri level 3: 土浦 — seven-shot starmine. -/
noncomputable def generateMatsuriLevel3 (c : LevelConfig) : Frag :=
  let fireworks : List FwRow :=
    [⟨1/2, 0, .purple, 18⟩, ⟨1/5, 3/20, .pink, 14⟩, ⟨4/5, 1/4, .cyan, 14⟩,
     ⟨35/100, 2/5, .orange, 16⟩, ⟨65/100, 1/2, .green, 16⟩,
     ⟨15/100, 13/20, .blue, 12⟩, ⟨85/100, 3/4, .yellow, 12⟩]
  let startY : ℚ := c.canvasHeight
  let baseExplosionY : ℤ := round ((c.canvasHeight : ℚ) * (32/100))
  let elements := fireworks.mapIdx fun i fw =>
    let x : ℤ := round ((c.canvasWidth : ℚ) * fw.pos)
    let yOffset : ℤ := (i % 3 : ℕ) * 8 - 8
    let explosionY := baseExplosionY + yOffset
    let explosionDelay := fw.delay + (3/5) * (4/5)
    generateThemeTrail ⟨x, startY, explosionY, fw.color, (3/5) * (4/5), fw.delay,
        7/2, some ("matsuri3-trail-" ++ Nat.repr i)⟩ ::
      generateSpark x explosionY fw.color explosionDelay (7/2) ::
      [generateThemeParticles ⟨x, explosionY, fw.count, if i = 0 then 65 else 50,
        fw.color, 3/5, explosionDelay, 7/2, true,
        some ("matsuri3-particles-" ++ Nat.repr i), if i = 0 then 4 else 3⟩]
  [Piece.raw "<g id=\"firework-matsuri-level-3\">\n  <defs>\n    "] ++
    generateGlowFilter ++ [Piece.raw "\n  </defs>\n  "] ++
    joinSep "\n  " elements.flatten ++
    [Piece.raw "\n</g>"]

/-- Choreography row of matsuri level 4. -/
structure FwM4Row where
  pos : ℚ
  delay : ℚ
  color : FireworkColorName
  count : ℕ
  distance : ℚ

/-- Matsuri level 4: 諏訪湖 — bursts with water reflections. -/
noncomputable def generateMatsuriLevel4 (c : LevelConfig) : Frag :=
  let waterY : ℤ := round ((c.canvasHeight : ℚ) * (75/100))
  let fireworks : List FwM4Row :=
    [⟨1/2, 0, .blue, 20, 70⟩, ⟨1/4, 2/5, .purple, 16, 55⟩, ⟨3/4, 7/10, .cyan, 16, 55⟩]
  let startY : ℚ := (waterY : ℚ) - 10
  let baseExplosionY : ℤ := round ((c.canvasHeight : ℚ) * (35/100))
  let elements := fireworks.mapIdx fun i fw =>
    let x : ℤ := round ((c.canvasWidth : ℚ) * fw.pos)
    let explosionY := baseExplosionY + (i : ℤ) * 8
    let explosionDelay := fw.delay + 3/5
    generateThemeTrail ⟨x, startY, explosionY, fw.color, 3/5, fw.delay, 9/2,
        some ("matsuri4-trail-" ++ Nat.repr i)⟩ ::
      generateSpark x explosionY fw.color explosionDelay (9/2) ::
      generateThemeParticles ⟨x, explosionY, fw.count, fw.distance, fw.color, 1,
        explosionDelay, 9/2, true, some ("matsuri4-particles-" ++ Nat.repr i), 4⟩ ::
      [generateReflectionPoints ⟨x, explosionY, waterY, fw.count,
        fw.distance * (4/5), fw.color, 7/5, explosionDelay + 1/20, 9/2,
        some ("matsuri4-reflection-" ++ Nat.repr i)⟩]
  [Piece.raw "<g id=\"firework-matsuri-level-4\">\n  <defs>\n    "] ++
    generateGlowFilter ++ [Piece.raw "\n    "] ++
    generateWaterGradient ++ [Piece.raw "\n  </defs>\n  "] ++
    generateWaterSurface c.canvasWidth waterY ++
    [Piece.raw "\n  "] ++
    joinSep "\n  " elements.flatten ++
    [Piece.raw "\n</g>"]

/-- Core flash of matsuri level 5. -/
def generateCoreFlash (cx cy size duration delay loopInterval : ℚ) : Frag :=
  let flashStart := delay / loopInterval
  let flashEnd := (delay + duration) / loopInterval
  [Piece.raw ("<circle id=\"matsuri5-core-flash\" cx=\"" ++ fmtQ cx ++ "\" cy=\"" ++
      fmtQ cy ++ "\" r=\"0\" fill=\"white\" opacity=\"0\">\n    "),
   Piece.anim false "<animate attributeName=\"r\"\n             values=\""
     ["0", "0", fmtQ size, fmtQ (size * (1/5)), "0"]
     "\"\n             keyTimes=\""
     (some ["0", jsToFixed 4 flashStart,
       jsToFixed 4 ((delay + duration * (3/10)) / loopInterval),
       jsToFixed 4 flashEnd, "1"])
     ("\"\n             dur=\"" ++ fmtQ loopInterval ++
      "s\" begin=\"0s\"\n             repeatCount=\"indefinite\" />\n    "),
   Piece.anim false "<animate attributeName=\"opacity\"\n             values=\""
     ["0", "0", "1", "0.3", "0", "0"]
     "\"\n             keyTimes=\""
     (some ["0", jsToFixed 4 flashStart,
       jsToFixed 4 ((delay + duration * (1/5)) / loopInterval),
       jsToFixed 4 ((delay + duration * (1/2)) / loopInterval),
       jsToFixed 4 flashEnd, "1"])
     ("\"\n             dur=\"" ++ fmtQ loopInterval ++
      "s\" begin=\"0s\"\n             repeatCount=\"indefinite\" />\n  </circle>")]

/-- One expanding ring wave of matsuri level 5 (`i` is 0 or 1). -/
def ringWave (cx cy maxSize stagger delay loopInterval : ℚ) (i : ℕ) : Frag :=
  let ringDelay := delay + i * stagger
  let ringStart := ringDelay / loopInterval
  let ringEnd := (ringDelay + 3/5) / loopInterval
  [Piece.raw ("  <circle id=\"matsuri5-ring-wave-" ++ Nat.repr (i + 1) ++
      "\" cx=\"" ++ fmtQ cx ++ "\" cy=\"" ++ fmtQ cy ++
      "\" r=\"0\"\n      fill=\"none\" stroke=\"white\" stroke-width=\"3\" opacity=\"0\">\n    "),
   Piece.anim false "<animate attributeName=\"r\"\n             values=\""
     ["0", "0", fmtQ maxSize, fmtQ maxSize]
     "\"\n             keyTimes=\""
     (some ["0", jsToFixed 4 ringStart, jsToFixed 4 ringEnd, "1"])
     ("\"\n             calcMode=\"spline\"\n             keySplines=\"0 0 1 1;0.2 0.8 0.4 1;0 0 1 1\"\n             dur=\"" ++
      fmtQ loopInterval ++
      "s\" begin=\"0s\"\n             repeatCount=\"indefinite\" />\n    "),
   Piece.anim false "<animate attributeName=\"opacity\"\n             values=\""
     ["0", "0", "0.8", "0", "0"]
     "\"\n             keyTimes=\""
     (some ["0", jsToFixed 4 ringStart, jsToFixed 4 ((ringDelay + 1/10) / loopInterval),
       jsToFixed 4 ringEnd, "1"])
     ("\"\n             dur=\"" ++ fmtQ loopInterval ++
      "s\" begin=\"0s\"\n             repeatCount=\"indefinite\" />\n    "),
   Piece.anim false "<animate attributeName=\"stroke-width\"\n             values=\""
     ["4", "4", "4", "1", "1"]
     "\"\n             keyTimes=\""
     (some ["0", jsToFixed 4 ringStart, jsToFixed 4 ((ringDelay + 1/10) / loopInterval),
       jsToFixed 4 ringEnd, "1"])
     ("\"\n             dur=\"" ++ fmtQ loopInterval ++
      "s\" begin=\"0s\"\n             repeatCount=\"indefinite\" />\n  </circle>")]

/-- Ring waves group of matsuri level 5. -/
def generateRingWaves (cx cy maxSize stagger delay loopInterval : ℚ) : Frag :=
  [Piece.raw "<g id=\"matsuri5-ring-waves\">\n"] ++
    joinSep "\n" ((List.range 2).map (ringWave cx cy maxSize stagger delay loopInterval)) ++
    [Piece.raw "\n  </g>"]

/-- Matsuri level 5: 長岡 — phoenix grand finale. -/
noncomputable def generateMatsuriLevel5 (c : LevelConfig) : Frag :=
  let centerX : ℤ := round ((c.canvasWidth : ℚ) * (1/2))
  let startY : ℚ := c.canvasHeight
  let mainExplosionY : ℤ := round ((c.canvasHeight : ℚ) * (28/100))
  let surroundingFireworks : List FwRow :=
    [⟨8/100, 1/10, .red, 12⟩, ⟨92/100, 3/20, .red, 12⟩, ⟨18/100, 3/10, .orange, 14⟩,
     ⟨82/100, 7/20, .orange, 14⟩, ⟨28/100, 1/2, .yellow, 12⟩,
     ⟨72/100, 11/20, .yellow, 12⟩, ⟨38/100, 7/10, .champagne, 10⟩,
     ⟨62/100, 3/4, .champagne, 10⟩, ⟨15/100, 9/10, .pink, 10⟩,
     ⟨85/100, 19/20, .pink, 10⟩]
  let surroundingElements := surroundingFireworks.mapIdx fun i fw =>
    let x : ℤ := round ((c.canvasWidth : ℚ) * fw.pos)
    let yOffset : ℤ := (i % 3 : ℕ) * 10 - 5
    let explosionY := mainExplosionY + yOffset
    let explosionDelay := fw.delay + 3/5
    generateThemeTrail ⟨x, startY, explosionY, fw.color, 3/5, fw.delay, 11/2,
        some ("matsuri5-surround-trail-" ++ Nat.repr i)⟩ ::
      [generateThemeParticles ⟨x, explosionY, fw.count, 40, fw.color, 4/5,
        explosionDelay, 11/2, true,
        some ("matsuri5-surround-particles-" ++ Nat.repr i), 3⟩]
  [Piece.raw "<g id=\"firework-matsuri-level-5\">\n  <defs>\n    "] ++
    generateGlowFilter ++ [Piece.raw "\n  </defs>\n  "] ++
    generateThemeTrail ⟨centerX, startY, mainExplosionY, .orange, 3/5, 0, 11/2,
      some "matsuri5-main-trail"⟩ ++
    [Piece.raw "\n  "] ++
    generateSpark centerX mainExplosionY .white (3/5) (11/2) ++
    [Piece.raw "\n  "] ++
    generateCoreFlash centerX mainExplosionY 30 (1/4) (3/5) (11/2) ++
    [Piece.raw "\n  "] ++
    generateRingWaves centerX mainExplosionY 100 (3/25) (3/5) (11/2) ++
    [Piece.raw "\n  "] ++
    generateThemeParticles ⟨centerX, mainExplosionY, 24, 90, .orange, 7/5, 3/5,
      11/2, true, some "matsuri5-main-particles", 5⟩ ++
    [Piece.raw "\n  "] ++
    generateThemeParticles ⟨centerX, mainExplosionY, 16, 55, .red, 1, 3/5 + 3/20,
      11/2, true, some "matsuri5-secondary-particles", 3⟩ ++
    [Piece.raw "\n  "] ++
    joinSep "\n  " surroundingElements.flatten ++
    [Piece.raw "\n</g>"]

/-! ### Theme registry and top-level composer
(`src/generators/registry.ts`, `src/generators/svg-generator.ts`) -/

inductive ThemeName where
  | kata | matsuri
deriving DecidableEq, Repr

/-- `generateFirework`: registry dispatch; level 0 yields the empty fragment.
The `Math.random()` stream reaches only matsuri level 1's sparkler. -/
noncomputable def generateFirework (theme : ThemeName) (level : FireworksLevel)
    (c : LevelConfig) (mrand : ℕ → ℚ) : Frag :=
  match theme, level with
  | _, .l0 => []
  | .kata, .l1 => generateKataLevel1 c
  | .kata, .l2 => generateKataLevel2 c
  | .kata, .l3 => generateKataLevel3 c
  | .kata, .l4 => generateKataLevel4 c
  | .kata, .l5 => generateKataLevel5 c
  | .matsuri, .l1 => generateMatsuriLevel1 c mrand
  | .matsuri, .l2 => generateMatsuriLevel2 c
  | .matsuri, .l3 => generateMatsuriLevel3 c
  | .matsuri, .l4 => generateMatsuriLevel4 c
  | .matsuri, .l5 => generateMatsuriLevel5 c

structure FireworksSVGConfig where
  username : String
  commits : ℤ
  level : FireworksLevel
  levelName : String
  width : ℕ
  height : ℕ
  theme : Option ThemeName
  isExtra : Bool

/-- Night-sky layer of the composed SVG. -/
def nightSkyLayer (cfg : FireworksSVGConfig) : Frag :=
  generateNightSky cfg.level cfg.username cfg.width cfg.height

/-- Theme-firework layer of the composed SVG. -/
noncomputable def fireworksLayer (cfg : FireworksSVGConfig) (mrand : ℕ → ℚ) : Frag :=
  generateFirework (cfg.theme.getD .kata) cfg.level
    ⟨cfg.width, cfg.height⟩ mrand

/-- `level > 0 ? Math.min(level + 1, 4) : 0`. -/
def bgFireworksCount (level : FireworksLevel) : ℕ :=
  if level = .l0 then 0 else min (level.toNat + 1) 4

/-- Ambient background-fireworks layer (seeded with `level * 17`). -/
noncomputable def bgFireworksLayer (cfg : FireworksSVGConfig) : Frag :=
  if bgFireworksCount cfg.level > 0 then
    generateBackgroundFireworks
      ⟨cfg.width, cfg.height, bgFireworksCount cfg.level, 4, cfg.level.toNat * 17⟩
  else []

/-- Optional Niagara layer: invoked with only the canvas dimensions and the
loop duration, leaving the seed and color pattern to their defaults. -/
def niagaraLayer (cfg : FireworksSVGConfig) : Frag :=
  if cfg.isExtra then
    generateNiagaraEffect ⟨cfg.width, cfg.height, 4, none, none⟩
  else []

/-- Overlay layer of the composed SVG. -/
def overlayLayer (cfg : FireworksSVGConfig) : Frag :=
  generateUserOverlay cfg.username cfg.commits cfg.levelName cfg.width cfg.height
    cfg.isExtra

/-- `generateFireworksSVG`: the top-level composer (night sky, ambient
bursts, themed firework, optional cascade, overlay). -/
noncomputable def generateFireworksSVG (cfg : FireworksSVGConfig) (mrand : ℕ → ℚ) :
    Frag :=
  [Piece.raw ("<svg xmlns=\"http://www.w3.org/2000/svg\" width=\"" ++
      Nat.repr cfg.width ++ "\" height=\"" ++ Nat.repr cfg.height ++
      "\" viewBox=\"0 0 " ++ Nat.repr cfg.width ++ " " ++ Nat.repr cfg.height ++
      "\">\n  ")] ++
    nightSkyLayer cfg ++
    [Piece.raw "\n  "] ++
    bgFireworksLayer cfg ++
    [Piece.raw "\n  "] ++
    fireworksLayer cfg mrand ++
    [Piece.raw "\n  "] ++
    niagaraLayer cfg ++
    [Piece.raw "\n  "] ++
    overlayLayer cfg ++
    [Piece.raw "\n</svg>"]

/-- Rendered output string of the top-level composer. -/
noncomputable def generateFireworksSVGStr (cfg : FireworksSVGConfig)
    (mrand : ℕ → ℚ) : String :=
  renderF (generateFireworksSVG cfg mrand)

/-- Substring containment on rendered markup. -/
def strContains (hay needle : String) : Prop := needle.data <:+: hay.data

/-- Every timeline of a fragment has matching `values`/`keyTimes` lengths. -/
def fragLengthsOk (f : Frag) : Prop := ∀ p ∈ f, p.lengthsOk

/-- A concrete matsuri level-1 request: canvas 400x200, no extra effect. -/
def c2Config : FireworksSVGConfig :=
  ⟨"octocat", 1, .l1, "Senko Hanabi", 400, 200, some .matsuri, false⟩

/-! ## Helper lemmas -/

theorem str_data_append (a b : String) : (a ++ b).data = a.data ++ b.data := rfl

/-- Substring containment survives surrounding concatenation. -/
theorem strContains_append (a b c : String) : strContains (a ++ b ++ c) b := by
  unfold strContains
  rw [str_data_append, str_data_append]
  exact List.infix_append a.data b.data c.data

/-- Positional description of `toKeyTimes`. -/
theorem toKeyTimes_getElem? (times : List ℚ) (L : ℚ) (p i : ℕ) :
    (toKeyTimes times L p)[i]? =
      (times[i]?).map fun t =>
        if i = times.length - 1 ∧ L ≤ t then 1
        else roundToPrec p (min (t / L) (99 / 100)) := by
  unfold toKeyTimes
  rw [List.getElem?_mapIdx]

theorem toKeyTimes_length (times : List ℚ) (L : ℚ) (p : ℕ) :
    (toKeyTimes times L p).length = times.length := by
  unfold toKeyTimes
  simp

/-- `roundToPrec` of a nonnegative value drops the sign branch. -/
theorem roundToPrec_of_nonneg (p : ℕ) {x : ℚ} (hx : 0 ≤ x) :
    roundToPrec p x = (⌊x * 10 ^ p + 1 / 2⌋ : ℚ) / 10 ^ p := by
  unfold roundToPrec
  rw [if_neg (not_lt.mpr hx), abs_of_nonneg hx, one_mul]

theorem roundToPrec_nonneg (p : ℕ) {x : ℚ} (hx : 0 ≤ x) : 0 ≤ roundToPrec p x := by
  rw [roundToPrec_of_nonneg p hx]
  have h10 : (0 : ℚ) < 10 ^ p := by positivity
  apply div_nonneg _ h10.le
  have : (0 : ℚ) ≤ x * 10 ^ p + 1 / 2 := by positivity
  exact_mod_cast Int.floor_nonneg.mpr this

theorem roundToPrec_mono (p : ℕ) {x y : ℚ} (hx : 0 ≤ x) (hxy : x ≤ y) :
    roundToPrec p x ≤ roundToPrec p y := by
  rw [roundToPrec_of_nonneg p hx, roundToPrec_of_nonneg p (hx.trans hxy)]
  have h10 : (0 : ℚ) < 10 ^ p := by positivity
  have h2 : x * 10 ^ p ≤ y * 10 ^ p := mul_le_mul_of_nonneg_right hxy h10.le
  gcongr

/-- With at least two digits of precision, rounding cannot push a value past
the `0.99` clamp. -/
theorem roundToPrec_le_99 (p : ℕ) (hp : 2 ≤ p) {x : ℚ} (hx : x ≤ 99 / 100) :
    roundToPrec p x ≤ 99 / 100 := by
  rcases lt_or_le x 0 with hneg | hpos
  · unfold roundToPrec
    rw [if_pos hneg, abs_of_neg hneg]
    have h10 : (0 : ℚ) < 10 ^ p := by positivity
    have hfl : (0 : ℚ) ≤ (⌊-x * 10 ^ p + 1 / 2⌋ : ℚ) := by
      have : (0 : ℚ) ≤ -x * 10 ^ p + 1 / 2 := by nlinarith
      exact_mod_cast Int.floor_nonneg.mpr this
    have : (-1 : ℚ) * (⌊-x * 10 ^ p + 1 / 2⌋ : ℚ) / 10 ^ p ≤ 0 := by
      apply div_nonpos_of_nonpos_of_nonneg _ h10.le
      nlinarith
    linarith
  · rw [roundToPrec_of_nonneg p hpos]
    have h10 : (0 : ℚ) < 10 ^ p := by positivity
    rw [div_le_iff₀ h10]
    -- `0.99·10^p` is an integer once `p ≥ 2`
    obtain ⟨q, hq⟩ : ∃ q : ℕ, p = 2 + q := ⟨p - 2, by omega⟩
    have hint : (99 : ℚ) / 100 * 10 ^ p = ((99 * 10 ^ q : ℤ) : ℚ) := by
      subst hq
      push_cast
      ring
    rw [hint]
    have hmono : x * 10 ^ p + 1 / 2 ≤ ((99 * 10 ^ q : ℤ) : ℚ) + 1 / 2 := by
      have hxp : x * 10 ^ p ≤ 99 / 100 * 10 ^ p :=
        mul_le_mul_of_nonneg_right hx h10.le
      rw [hint] at hxp
      linarith
    have : (⌊x * 10 ^ p + 1 / 2⌋ : ℤ) ≤ ⌊((99 * 10 ^ q : ℤ) : ℚ) + 1 / 2⌋ :=
      Int.floor_le_floor hmono
    have hflval : ⌊((99 * 10 ^ q : ℤ) : ℚ) + 1 / 2⌋ = 99 * 10 ^ q := by
      rw [add_comm, Int.floor_add_int]
      norm_num
    rw [hflval] at this
    exact_mod_cast this

/-- Values produced for non-forced positions of `toKeyTimes` stay within the
clamp when the input time is nonnegative. -/
theorem toKeyTimes_entry_range (p : ℕ) (hp : 2 ≤ p) {L t : ℚ} (hL : 0 < L)
    (ht : 0 ≤ t) :
    0 ≤ roundToPrec p (min (t / L) (99 / 100)) ∧
      roundToPrec p (min (t / L) (99 / 100)) ≤ 99 / 100 := by
  constructor
  · exact roundToPrec_nonneg p (le_min (div_nonneg ht hL.le) (by norm_num))
  · exact roundToPrec_le_99 p hp (min_le_right _ _)

/-! ## Claim theorems -/

/-- C6: `calculateLevel` maps commit count 0 to level 0, 1 to level 1, the
whole band 8–15 to level 3, 35 to level 5, and in general follows the bands
0, 1–3, 4–7, 8–15, 16–29, 30+ for levels 0–5. -/
theorem c6_calculate_level_bands (c : ℤ) (hc : 0 ≤ c) :
    calculateLevel c =
      (if c = 0 then .l0 else if c ≤ 3 then .l1 else if c ≤ 7 then .l2
       else if c ≤ 15 then .l3 else if c ≤ 29 then .l4 else .l5) ∧
    calculateLevel 0 = .l0 ∧ calculateLevel 1 = .l1 ∧
    (∀ k : ℤ, 8 ≤ k → k ≤ 15 → calculateLevel k = .l3) ∧
    calculateLevel 35 = .l5 := by
  refine ⟨?_, by decide, by decide, ?_, by decide⟩
  · unfold calculateLevel
    split_ifs <;> first | rfl | omega
  · intro k h8 h15
    unfold calculateLevel
    split_ifs <;> first | rfl | omega

/-- C6 witness: level bands evaluated at commit count 10 (inside 8–15). -/
theorem c6_witness :
    (0 : ℤ) ≤ 10 ∧ calculateLevel 10 = .l3 :=
  ⟨by decide, (c6_calculate_level_bands 10 (by decide)).2.2.2.1 10 (by decide) (by decide)⟩

/-- C5: `toKeyTime` is the clamped ratio `min(time/loopDuration, 0.99)`
formatted at the given precision, and `toKeyTimes` maps every position the
same way (numerically) except that the last position is forced to exactly 1
when its raw time reaches the loop duration, and is clamped like any
intermediate point otherwise. -/
theorem c5_tokeytime_spec :
    (∀ (time loopInterval : ℚ) (precision : ℕ),
        toKeyTime time loopInterval precision =
          jsToFixed precision (min (time / loopInterval) (99 / 100))) ∧
    (∀ (times : List ℚ) (L : ℚ) (p i : ℕ), i < times.length →
        (toKeyTimes times L p).getD i 0 =
          if i = times.length - 1 ∧ L ≤ times.getD i 0 then 1
          else roundToPrec p (min (times.getD i 0 / L) (99 / 100))) := by
  refine ⟨fun _ _ _ => rfl, ?_⟩
  intro times L p i hi
  have h1 : times[i]? = some times[i] := List.getElem?_eq_getElem hi
  rw [List.getD_eq_getElem?_getD, toKeyTimes_getElem?, h1,
    List.getD_eq_getElem?_getD, h1]
  rfl

/-- C5 witness: the helper evaluated at the repository's own test vectors
(`toKeyTime(1, 3, 2)` and the clamped middle entry of
`toKeyTimes([0, 4, 5], 3)`). -/
theorem c5_witness :
    toKeyTime 1 3 2 = jsToFixed 2 (min ((1 : ℚ) / 3) (99 / 100)) ∧
    (1 : ℕ) < List.length [(0 : ℚ), 4, 5] ∧
    (toKeyTimes [(0 : ℚ), 4, 5] 3 4).getD 1 0 =
      roundToPrec 4 (min ((4 : ℚ) / 3) (99 / 100)) :=
  ⟨c5_tokeytime_spec.1 1 3 2, by decide, by
    have h := c5_tokeytime_spec.2 [(0 : ℚ), 4, 5] 3 4 1 (by decide)
    rw [if_neg (by norm_num)] at h
    simpa using h⟩

/-- C4 counterexample: the claim forces the final `toKeyTimes` element to be
exactly 1, but `toKeyTimes([1], 2)` ends with `0.5`: the code forces 1 only
when the last raw time reaches the loop duration. -/
theorem c4_final_not_one :
    ¬ (toKeyTimes [1] 2 4).getLast? = some 1 := by
  have h : toKeyTimes [1] 2 4 = [roundToPrec 4 (min ((1 : ℚ) / 2) (99 / 100))] := by
    unfold toKeyTimes
    rw [List.mapIdx_cons, List.mapIdx_nil, if_neg (by norm_num)]
  have hval : roundToPrec 4 (min ((1 : ℚ) / 2) (99 / 100)) = 1 / 2 := by
    rw [min_eq_left (by norm_num), roundToPrec_of_nonneg 4 (by norm_num)]
    norm_num
  rw [h, hval]
  simp only [List.getLast?_singleton, Option.some.injEq]
  norm_num

/-- C4 amended: for nonempty, nonnegative times, positive loop duration and
precision at least 2 (the default is 4): the final element is 1 exactly when
the last raw time reaches the loop duration (and is otherwise clamped like
any other point); every non-final element lies in `[0, 0.99]`; and the output
is non-decreasing whenever the input is. -/
theorem c4_keytimes_amended (times : List ℚ) (L : ℚ) (p : ℕ)
    (hne : times ≠ []) (hL : 0 < L) (hp : 2 ≤ p) (hnn : ∀ t ∈ times, 0 ≤ t) :
    (∀ t, times.getLast? = some t →
       (toKeyTimes times L p).getLast? =
         some (if L ≤ t then 1 else roundToPrec p (min (t / L) (99 / 100)))) ∧
    (∀ i, i < times.length - 1 →
       0 ≤ (toKeyTimes times L p).getD i 0 ∧
         (toKeyTimes times L p).getD i 0 ≤ 99 / 100) ∧
    ((toKeyTimes times L p).getLast? = some 1 ↔
       ∃ t, times.getLast? = some t ∧ L ≤ t) ∧
    (List.Chain' (· ≤ ·) times → List.Chain' (· ≤ ·) (toKeyTimes times L p)) := by
  have hlen : 0 < times.length := List.length_pos.mpr hne
  have hlast : ∀ t, times.getLast? = some t →
      (toKeyTimes times L p).getLast? =
        some (if L ≤ t then 1 else roundToPrec p (min (t / L) (99 / 100))) := by
    intro t ht
    rw [List.getLast?_eq_getElem?] at ht
    rw [List.getLast?_eq_getElem?, toKeyTimes_length, toKeyTimes_getElem?, ht]
    simp
  refine ⟨hlast, ?_, ?_, ?_⟩
  · intro i hi
    have hilt : i < times.length := by omega
    have h1 : times[i]? = some times[i] := List.getElem?_eq_getElem hilt
    have hmem : times[i] ∈ times := List.getElem_mem hilt
    rw [List.getD_eq_getElem?_getD, toKeyTimes_getElem?, h1]
    have hne' : ¬ (i = times.length - 1 ∧ L ≤ times[i]) := by
      rintro ⟨h, -⟩
      omega
    simp only [Option.map_some', Option.getD_some, if_neg hne']
    exact toKeyTimes_entry_range p hp hL (hnn _ hmem)
  · constructor
    · intro h1
      have ht : times.getLast? = some (times.getLast hne) :=
        List.getLast?_eq_getLast times hne
      refine ⟨times.getLast hne, ht, ?_⟩
      by_contra hc
      have h2 := hlast _ ht
      rw [if_neg hc, h1] at h2
      have hinj : (1 : ℚ) = roundToPrec p (min (times.getLast hne / L) (99 / 100)) := by
        injection h2
      have hmem : times.getLast hne ∈ times := List.getLast_mem hne
      have hrange := toKeyTimes_entry_range p hp hL (hnn _ hmem)
      linarith [hrange.2]
    · rintro ⟨t, ht, hc⟩
      rw [hlast t ht, if_pos hc]
  · intro hchain
    rw [List.chain'_iff_get] at hchain ⊢
    intro i hi
    rw [toKeyTimes_length] at hi
    have hi1 : i < times.length := by omega
    have hi2 : i + 1 < times.length := by omega
    simp only [List.get_eq_getElem] at hchain ⊢
    have hmono := hchain i (by omega)
    have hb1 : i < (toKeyTimes times L p).length := by rw [toKeyTimes_length]; omega
    have hb2 : i + 1 < (toKeyTimes times L p).length := by
      rw [toKeyTimes_length]; omega
    have e1 : (toKeyTimes times L p)[i] =
        if i = times.length - 1 ∧ L ≤ times[i] then 1
        else roundToPrec p (min (times[i] / L) (99 / 100)) := by
      have := toKeyTimes_getElem? times L p i
      rw [List.getElem?_eq_getElem hi1] at this
      rw [← Option.some_inj, ← List.getElem?_eq_getElem, this]
      rfl
    have e2 : (toKeyTimes times L p)[i + 1] =
        if i + 1 = times.length - 1 ∧ L ≤ times[i + 1] then 1
        else roundToPrec p (min (times[i + 1] / L) (99 / 100)) := by
      have := toKeyTimes_getElem? times L p (i + 1)
      rw [List.getElem?_eq_getElem hi2] at this
      rw [← Option.some_inj, ← List.getElem?_eq_getElem, this]
      rfl
    rw [e1, e2]
    have hnn1 : (0 : ℚ) ≤ times[i] := hnn _ (List.getElem_mem hi1)
    have hminmono : min (times[i] / L) (99 / 100) ≤
        min (times[i + 1] / L) (99 / 100) := by
      apply min_le_min _ le_rfl
      gcongr
    have hminnn : (0 : ℚ) ≤ min (times[i] / L) (99 / 100) :=
      le_min (div_nonneg hnn1 hL.le) (by norm_num)
    have hne1 : ¬ (i = times.length - 1 ∧ L ≤ times[i]) := by
      rintro ⟨h, -⟩
      omega
    rw [if_neg hne1]
    by_cases hc : i + 1 = times.length - 1 ∧ L ≤ times[i + 1]
    · rw [if_pos hc]
      have := roundToPrec_le_99 p hp (min_le_right (times[i] / L) (99 / 100))
      linarith
    · rw [if_neg hc]
      exact roundToPrec_mono p hminnn hminmono

/-- C4 witness: amended statement applied to `toKeyTimes([0, 1, 3], 3)`,
whose terminal element is forced to exactly 1. -/
theorem c4_witness :
    ([(0 : ℚ), 1, 3] ≠ []) ∧ (0 : ℚ) < 3 ∧ (2 : ℕ) ≤ 4 ∧
    (toKeyTimes [(0 : ℚ), 1, 3] 3 4).getLast? = some 1 :=
  ⟨by simp, by simp, by decide, by
    have h := (c4_keytimes_amended [(0 : ℚ), 1, 3] 3 4 (by simp) (by simp)
      (by decide) (by norm_num)).1 3 (by simp)
    rw [if_pos (le_refl (3 : ℚ))] at h
    exact h⟩

/-- C3: `animateAttr` and `animateTransform` fail exactly when the `values`
and `keyTimes` arrays differ in length; the error message names the
offending attribute (resp. transform kind) and states both lengths; with
equal lengths they return a fragment. -/
theorem c3_animate_length_mismatch (attr type_ : String) (values : List String)
    (kt : List ℚ) (dur : String) (opts : AnimateOptions) :
    (values.length ≠ kt.length →
       animateAttr attr values kt dur opts =
         .error (animateAttrError attr values.length kt.length) ∧
       animateTransform type_ values kt dur opts =
         .error (animateTransformError type_ values.length kt.length)) ∧
    (values.length = kt.length →
       (∃ s, animateAttr attr values kt dur opts = .ok s) ∧
       (∃ s, animateTransform type_ values kt dur opts = .ok s)) ∧
    (∀ e, animateAttr attr values kt dur opts = .error e →
       values.length ≠ kt.length) ∧
    (∀ e, animateTransform type_ values kt dur opts = .error e →
       values.length ≠ kt.length) ∧
    strContains (animateAttrError attr values.length kt.length) attr ∧
    strContains (animateAttrError attr values.length kt.length)
      (Nat.repr values.length) ∧
    strContains (animateAttrError attr values.length kt.length)
      (Nat.repr kt.length) ∧
    strContains (animateTransformError type_ values.length kt.length) type_ := by
  refine ⟨?_, ?_, ?_, ?_, ?_, ?_, ?_, ?_⟩
  · intro h
    exact ⟨by rw [animateAttr, if_pos h], by rw [animateTransform, if_pos h]⟩
  · intro h
    refine ⟨⟨_, by rw [animateAttr, if_neg (not_not_intro h)]⟩,
      ⟨_, by rw [animateTransform, if_neg (not_not_intro h)]⟩⟩
  · intro e he
    by_contra h
    rw [animateAttr, if_neg (not_not_intro h)] at he
    exact Except.noConfusion he
  · intro e he
    by_contra h
    rw [animateTransform, if_neg (not_not_intro h)] at he
    exact Except.noConfusion he
  · unfold animateAttrError
    simpa [String.append_assoc] using
      strContains_append "animateAttr: values/keyTimes length mismatch for \"" attr
        ("\". " ++ ("values has " ++ Nat.repr values.length ++ " items, keyTimes has " ++
          Nat.repr kt.length ++ " items."))
  · unfold animateAttrError
    simpa [String.append_assoc] using
      strContains_append
        ("animateAttr: values/keyTimes length mismatch for \"" ++ attr ++ "\". " ++
          "values has ")
        (Nat.repr values.length)
        (" items, keyTimes has " ++ Nat.repr kt.length ++ " items.")
  · unfold animateAttrError
    simpa [String.append_assoc] using
      strContains_append
        ("animateAttr: values/keyTimes length mismatch for \"" ++ attr ++ "\". " ++
          "values has " ++ Nat.repr values.length ++ " items, keyTimes has ")
        (Nat.repr kt.length)
        " items."
  · unfold animateTransformError
    simpa [String.append_assoc] using
      strContains_append "animateTransform: values/keyTimes length mismatch for \""
        type_
        ("\". " ++ ("values has " ++ Nat.repr values.length ++ " items, keyTimes has " ++
          Nat.repr kt.length ++ " items."))

/-- C3 witness: the mismatch error observed at a concrete two-versus-three
call, and a fragment returned at an equal-length call. -/
theorem c3_witness :
    (List.length ["0", "1"] ≠ List.length [(0 : ℚ), 1/2, 1] →
       animateAttr "opacity" ["0", "1"] [0, 1/2, 1] "2s" AnimateOptions.default =
         .error (animateAttrError "opacity" (List.length ["0", "1"])
           (List.length [(0 : ℚ), 1/2, 1])) ∧
       animateTransform "scale" ["0", "1"] [0, 1/2, 1] "2s" AnimateOptions.default =
         .error (animateTransformError "scale" (List.length ["0", "1"])
           (List.length [(0 : ℚ), 1/2, 1]))) ∧
    List.length ["0", "1"] ≠ List.length [(0 : ℚ), 1/2, 1] :=
  ⟨((c3_animate_length_mismatch "opacity" "scale" ["0", "1"] [0, 1/2, 1] "2s"
      AnimateOptions.default).1), by decide⟩

/-- C9: the circle-position calculator returns exactly `count` offsets, the
`i`-th being the rounded point at angle `2π·i/count`; count 0 yields the
empty list, and `(4, 10)` yields the four axis-aligned points. -/
theorem c9_circle_positions :
    (∀ (count : ℕ) (radius : ℝ),
       (getCirclePositions count radius).length = count ∧
       ∀ i, i < count →
         (getCirclePositions count radius)[i]? =
           some ⟨round (Real.cos (2 * Real.pi * i / count) * radius),
                 round (Real.sin (2 * Real.pi * i / count) * radius)⟩) ∧
    (∀ radius, getCirclePositions 0 radius = []) ∧
    getCirclePositions 4 10 = [⟨10, 0⟩, ⟨0, 10⟩, ⟨-10, 0⟩, ⟨0, -10⟩] := by
  refine ⟨?_, ?_, ?_⟩
  · intro count radius
    constructor
    · simp [getCirclePositions]
    · intro i hi
      unfold getCirclePositions
      rw [List.getElem?_map, List.getElem?_range hi]
      rfl
  · intro radius
    simp [getCirclePositions]
  · have h0 : (2 * Real.pi * (0 : ℕ) / (4 : ℕ) : ℝ) = 0 := by
      push_cast
      ring
    have h1 : (2 * Real.pi * (1 : ℕ) / (4 : ℕ) : ℝ) = Real.pi / 2 := by
      push_cast
      ring
    have h2 : (2 * Real.pi * (2 : ℕ) / (4 : ℕ) : ℝ) = Real.pi := by
      push_cast
      ring
    have h3 : (2 * Real.pi * (3 : ℕ) / (4 : ℕ) : ℝ) = Real.pi + Real.pi / 2 := by
      push_cast
      ring
    have hcos3 : Real.cos (Real.pi + Real.pi / 2) = 0 := by
      rw [Real.cos_add, Real.cos_pi, Real.sin_pi, Real.cos_pi_div_two]
      ring
    have hsin3 : Real.sin (Real.pi + Real.pi / 2) = -1 := by
      rw [Real.sin_add, Real.cos_pi, Real.sin_pi, Real.sin_pi_div_two]
      ring
    have hr10 : round ((10 : ℝ)) = 10 := by
      have : ((10 : ℤ) : ℝ) = (10 : ℝ) := by norm_num
      rw [← this, round_intCast]
    have hrn10 : round ((-10 : ℝ)) = -10 := by
      have : ((-10 : ℤ) : ℝ) = (-10 : ℝ) := by norm_num
      rw [← this, round_intCast]
    have hrange : List.range 4 = [0, 1, 2, 3] := by decide
    unfold getCirclePositions
    rw [hrange]
    simp only [List.map_cons, List.map_nil]
    rw [h0, h1, h2, h3]
    rw [Real.cos_zero, Real.sin_zero, Real.cos_pi_div_two, Real.sin_pi_div_two,
      Real.cos_pi, Real.sin_pi, hcos3, hsin3]
    norm_num [hr10, hrn10]

theorem string_foldl_append (l : List String) (a : String) :
    l.foldl (fun r s => r ++ s) a = a ++ l.foldl (fun r s => r ++ s) "" := by
  induction l generalizing a with
  | nil => simp
  | cons x l ih =>
    simp only [List.foldl_cons]
    rw [ih (a ++ x), ih (("" : String) ++ x)]
    simp [String.append_assoc]

theorem string_join_append (l₁ l₂ : List String) :
    String.join (l₁ ++ l₂) = String.join l₁ ++ String.join l₂ := by
  cases l₁ with
  | nil => simp [String.join]
  | cons a l =>
    simp only [String.join, List.cons_append, List.foldl_cons, List.foldl_append]
    exact string_foldl_append l₂ _

theorem renderF_append (a b : Frag) : renderF (a ++ b) = renderF a ++ renderF b := by
  unfold renderF
  rw [List.map_append, string_join_append]

theorem strContains_mono_left {a x : String} (b : String) (h : strContains a x) :
    strContains (a ++ b) x := by
  unfold strContains at h ⊢
  rw [str_data_append]
  exact h.trans (List.prefix_append a.data b.data).isInfix

theorem strContains_mono_right {b x : String} (a : String) (h : strContains b x) :
    strContains (a ++ b) x := by
  unfold strContains at h ⊢
  rw [str_data_append]
  exact h.trans (List.suffix_append a.data b.data).isInfix

theorem strContains_refl (s : String) : strContains s s := List.infix_refl s.data

theorem strContains_front (s t : String) : strContains (s ++ t) s :=
  strContains_mono_left t (strContains_refl s)

/-- The rendering of `joinSep` over a nonempty list starts with the rendering
of its first fragment. -/
theorem renderF_joinSep_cons (sep : String) (f : Frag) (fs : List Frag) :
    ∃ t, renderF (joinSep sep (f :: fs)) = renderF f ++ t := by
  cases fs with
  | nil => exact ⟨"", by simp [joinSep, renderF]⟩
  | cons g gs =>
    refine ⟨renderF ([Piece.raw sep] ++ joinSep sep (g :: gs)), ?_⟩
    rw [show joinSep sep (f :: g :: gs) =
        f ++ ([Piece.raw sep] ++ joinSep sep (g :: gs)) from by
      rw [← List.append_assoc]; rfl, renderF_append]

/-- C10: the top-level composer invokes the Niagara cascade with only the
canvas dimensions and the constant loop duration; the generator's seed
defaults to the constant 42; hence any two extra-effect requests with the
same dimensions receive byte-identical cascade markup regardless of
username, commit count, level or theme. -/
theorem c10_niagara_independent (u1 u2 : String) (c1 c2 : ℤ)
    (lv1 lv2 : FireworksLevel) (n1 n2 : String) (t1 t2 : Option ThemeName)
    (w h : ℕ) :
    niagaraLayer ⟨u1, c1, lv1, n1, w, h, t1, true⟩ =
      generateNiagaraEffect ⟨w, h, 4, none, none⟩ ∧
    generateNiagaraEffect ⟨w, h, 4, none, none⟩ =
      generateNiagaraEffect ⟨w, h, 4, none, some 42⟩ ∧
    renderF (niagaraLayer ⟨u1, c1, lv1, n1, w, h, t1, true⟩) =
      renderF (niagaraLayer ⟨u2, c2, lv2, n2, w, h, t2, true⟩) := by
  exact ⟨rfl, rfl, rfl⟩

theorem renderF_nil : renderF [] = "" := rfl

theorem renderF_cons (p : Piece) (l : Frag) :
    renderF (p :: l) = p.render ++ renderF l := by
  unfold renderF
  simp only [List.map_cons, String.join, List.foldl_cons]
  rw [string_foldl_append]
  simp

theorem strContains_renderF_left {A : Frag} (B : Frag) {x : String}
    (hx : strContains (renderF A) x) : strContains (renderF (A ++ B)) x := by
  rw [renderF_append]
  exact strContains_mono_left _ hx

theorem strContains_renderF_right {B : Frag} (A : Frag) {x : String}
    (hx : strContains (renderF B) x) : strContains (renderF (A ++ B)) x := by
  rw [renderF_append]
  exact strContains_mono_right _ hx

/-- Rendering a `joinSep` whose first fragment opens with a literal prefix
starts with that prefix. -/
theorem joinSep_head_render (sep pre a : String) (rest0 : Frag) (R : List Frag) :
    ∃ t, renderF (joinSep sep ((Piece.raw (pre ++ a) :: rest0) :: R)) = pre ++ t := by
  obtain ⟨t1, ht1⟩ := renderF_joinSep_cons sep (Piece.raw (pre ++ a) :: rest0) R
  refine ⟨a ++ (renderF rest0 ++ t1), ?_⟩
  rw [ht1, renderF_cons]
  show (pre ++ a) ++ renderF rest0 ++ t1 = _
  rw [String.append_assoc, String.append_assoc]

/-- The star field starts with a star circle element. -/
theorem generateStars_head (isLeg : Bool) (seed w h : ℕ) :
    ∃ t, renderF (generateStars isLeg seed w h) = "<circle cx=\"" ++ t := by
  have key : ∀ (n s : ℕ), ∃ t,
      renderF (joinSep "\n    "
        (statList (starItem w h) (List.range (n + 1)) s).1) =
        "<circle cx=\"" ++ t := by
    intro n s
    rw [List.range_succ_eq_map]
    exact joinSep_head_render "\n    " "<circle cx=\"" _ _ _
  cases isLeg with
  | false => exact key 24 seed
  | true => exact key 34 seed

/-- C7: at level 0 the theme-firework layer, the ambient background-burst
layer and the cascade layer are all empty, while the output still contains
the night-sky group and a star circle. -/
theorem c7_level0_layers (theme : Option ThemeName) (u nm : String)
    (commits : ℤ) (w h : ℕ) (mrand : ℕ → ℚ) :
    fireworksLayer ⟨u, commits, .l0, nm, w, h, theme, false⟩ mrand = [] ∧
    bgFireworksLayer ⟨u, commits, .l0, nm, w, h, theme, false⟩ = [] ∧
    niagaraLayer ⟨u, commits, .l0, nm, w, h, theme, false⟩ = [] ∧
    strContains
      (generateFireworksSVGStr ⟨u, commits, .l0, nm, w, h, theme, false⟩ mrand)
      "<g id=\"night-sky\">" ∧
    strContains
      (generateFireworksSVGStr ⟨u, commits, .l0, nm, w, h, theme, false⟩ mrand)
      "<circle cx=\"" := by
  refine ⟨?_, ?_, rfl, ?_, ?_⟩
  · show generateFirework (theme.getD .kata) .l0 ⟨w, h⟩ mrand = []
    cases theme.getD ThemeName.kata <;> rfl
  · simp [bgFireworksLayer, bgFireworksCount]
  · show strContains (renderF (generateFireworksSVG _ mrand)) _
    unfold generateFireworksSVG
    apply strContains_renderF_left
    apply strContains_renderF_left
    apply strContains_renderF_left
    apply strContains_renderF_left
    apply strContains_renderF_left
    apply strContains_renderF_left
    apply strContains_renderF_left
    apply strContains_renderF_left
    apply strContains_renderF_left
    apply strContains_renderF_right
    show strContains (renderF (generateNightSky _ _ _ _)) _
    unfold generateNightSky
    apply strContains_renderF_left
    apply strContains_renderF_left
    apply strContains_renderF_left
    apply strContains_renderF_left
    rw [renderF_cons, renderF_nil]
    exact strContains_mono_left _
      (strContains_front "<g id=\"night-sky\">" "\n    ")
  · show strContains (renderF (generateFireworksSVG _ mrand)) _
    unfold generateFireworksSVG
    apply strContains_renderF_left
    apply strContains_renderF_left
    apply strContains_renderF_left
    apply strContains_renderF_left
    apply strContains_renderF_left
    apply strContains_renderF_left
    apply strContains_renderF_left
    apply strContains_renderF_left
    apply strContains_renderF_left
    apply strContains_renderF_right
    show strContains (renderF (generateNightSky _ _ _ _)) _
    unfold generateNightSky
    apply strContains_renderF_left
    apply strContains_renderF_right
    obtain ⟨t, ht⟩ := generateStars_head _ _ w h
    rw [ht]
    exact strContains_front "<circle cx=\"" t

theorem countA_nil : countA [] = 0 := rfl

theorem countA_append (a b : Frag) : countA (a ++ b) = countA a + countA b := by
  unfold countA
  rw [List.filter_append, List.length_append]

theorem countA_raw_cons (s : String) (l : Frag) :
    countA (Piece.raw s :: l) = countA l := by
  simp [countA, List.filter, Piece.isAnim]

theorem countA_anim_cons (tf : Bool) (pre : String) (v : List String)
    (mid : String) (kt : Option (List String)) (post : String) (l : Frag) :
    countA (Piece.anim tf pre v mid kt post :: l) = countA l + 1 := by
  simp [countA, List.filter, Piece.isAnim]

theorem countA_joinSep (sep : String) (l : List Frag) :
    countA (joinSep sep l) = (l.map countA).sum := by
  induction l with
  | nil => rfl
  | cons f fs ih =>
    cases fs with
    | nil => simp [joinSep]
    | cons g gs =>
      rw [show joinSep sep (f :: g :: gs) =
          f ++ ([Piece.raw sep] ++ joinSep sep (g :: gs)) from by
        rw [← List.append_assoc]; rfl]
      rw [countA_append, countA_append, countA_raw_cons, countA_nil, ih]
      simp

theorem sum_map_const {α : Type} (l : List α) (c : ℕ) (g : α → ℕ)
    (hg : ∀ a ∈ l, g a = c) : (l.map g).sum = c * l.length := by
  induction l with
  | nil => simp
  | cons a as ih =>
    simp only [List.map_cons, List.sum_cons, List.length_cons]
    rw [hg a (List.mem_cons_self a as), ih fun x hx => hg x (List.mem_cons_of_mem a hx)]
    ring

/-- Total timeline count collected by `statList` when every item contributes
the same number of timelines regardless of the PRNG state. -/
theorem statList_countA_sum {α : Type} (f : α → ℕ → List Frag × ℕ) (k : ℕ)
    (hf : ∀ a s, (((f a s).1).map countA).sum = k) :
    ∀ (l : List α) (s : ℕ), (((statList f l s).1).map countA).sum = k * l.length := by
  intro l
  induction l with
  | nil => intro s; simp [statList]
  | cons a as ih =>
    intro s
    show ((((f a s).1 ++ (statList f as (f a s).2).1).map countA).sum) = _
    rw [List.map_append, List.sum_append, hf, ih]
    simp only [List.length_cons]
    ring

theorem countA_generateThemeTrail (c : ThemeTrailConfig) :
    countA (generateThemeTrail c) = 3 := by
  simp [generateThemeTrail, countA_raw_cons, countA_anim_cons, countA_nil]

theorem countA_generateSpark (cx cy : ℚ) (color : FireworkColorName)
    (delay loopDuration : ℚ) :
    countA (generateSpark cx cy color delay loopDuration) = 2 := by
  simp [generateSpark, countA_raw_cons, countA_anim_cons, countA_nil]

theorem countA_themeParticle (c : ThemeParticleConfig) (i : ℕ) :
    countA (themeParticle c i) = 3 := by
  simp [themeParticle, countA_raw_cons, countA_anim_cons, countA_nil]

theorem countA_generateThemeParticles (c : ThemeParticleConfig) :
    countA (generateThemeParticles c) = 3 * c.particleCount := by
  unfold generateThemeParticles
  rw [countA_append, countA_append, countA_joinSep]
  rw [sum_map_const _ 3 _ (by
    intro a ha
    obtain ⟨i, -, rfl⟩ := List.mem_map.mp ha
    exact countA_themeParticle c i)]
  simp [countA_raw_cons, countA_nil]

theorem countA_rotatingParticle (c : RotatingParticleConfig) (i : ℕ) :
    countA (rotatingParticle c i) = 4 := by
  simp [rotatingParticle, countA_raw_cons, countA_anim_cons, countA_nil]

theorem countA_generateRotatingParticles (c : RotatingParticleConfig) :
    countA (generateRotatingParticles c) = 4 * c.particleCount := by
  unfold generateRotatingParticles
  rw [countA_append, countA_append, countA_joinSep]
  rw [sum_map_const _ 4 _ (by
    intro a ha
    obtain ⟨i, -, rfl⟩ := List.mem_map.mp ha
    exact countA_rotatingParticle c i)]
  simp [countA_raw_cons, countA_nil]

theorem countA_gravityParticle (c : GravityParticleConfig) (i : ℕ) :
    countA (gravityParticle c i) = 3 := by
  simp [gravityParticle, countA_raw_cons, countA_anim_cons, countA_nil]

theorem countA_generateGravityParticles (c : GravityParticleConfig) :
    countA (generateGravityParticles c) = 3 * c.particleCount := by
  unfold generateGravityParticles
  rw [countA_append, countA_append, countA_joinSep]
  rw [sum_map_const _ 3 _ (by
    intro a ha
    obtain ⟨i, -, rfl⟩ := List.mem_map.mp ha
    exact countA_gravityParticle c i)]
  simp [countA_raw_cons, countA_nil]

theorem countA_sparklerParticle (c : SparklerConfig) (mrand : ℕ → ℚ) (i : ℕ) :
    countA (sparklerParticle c mrand i) = 3 := by
  simp [sparklerParticle, countA_raw_cons, countA_anim_cons, countA_nil]

theorem countA_generateSparklerEffect (c : SparklerConfig) (mrand : ℕ → ℚ) :
    countA (generateSparklerEffect c mrand) = 3 * c.particleCount := by
  unfold generateSparklerEffect
  rw [countA_append, countA_append, countA_joinSep]
  rw [sum_map_const _ 3 _ (by
    intro a ha
    obtain ⟨i, -, rfl⟩ := List.mem_map.mp ha
    exact countA_sparklerParticle c mrand i)]
  simp [countA_raw_cons, countA_nil]

theorem countA_generateGlowFilter : countA generateGlowFilter = 0 := rfl

theorem countA_generateCoreFlash (cx cy size duration delay loopInterval : ℚ) :
    countA (generateCoreFlash cx cy size duration delay loopInterval) = 2 := by
  simp [generateCoreFlash, countA_raw_cons, countA_anim_cons, countA_nil]

theorem countA_ringWave (cx cy maxSize stagger delay loopInterval : ℚ) (i : ℕ) :
    countA (ringWave cx cy maxSize stagger delay loopInterval i) = 3 := by
  simp [ringWave, countA_raw_cons, countA_anim_cons, countA_nil]

theorem countA_generateRingWaves (cx cy maxSize stagger delay loopInterval : ℚ) :
    countA (generateRingWaves cx cy maxSize stagger delay loopInterval) = 6 := by
  unfold generateRingWaves
  rw [countA_append, countA_append, countA_joinSep]
  rw [sum_map_const _ 3 _ (by
    intro a ha
    obtain ⟨i, -, rfl⟩ := List.mem_map.mp ha
    exact countA_ringWave cx cy maxSize stagger delay loopInterval i)]
  simp [countA_raw_cons, countA_nil]

theorem countA_starItem (w h i s : ℕ) :
    (((starItem w h i s).1).map countA).sum = 1 := by
  show ([countA _]).sum = 1
  simp [countA_raw_cons, countA_anim_cons, countA_nil]

theorem countA_generateStars (b : Bool) (seed w h : ℕ) :
    countA (generateStars b seed w h) = if b then 35 else 25 := by
  unfold generateStars
  cases b with
  | false =>
    rw [countA_joinSep, statList_countA_sum (starItem w h) 1 (countA_starItem w h)]
    simp
  | true =>
    rw [countA_joinSep, statList_countA_sum (starItem w h) 1 (countA_starItem w h)]
    simp

theorem countA_nightSkyLayer (cfg : FireworksSVGConfig) :
    countA (nightSkyLayer cfg) = if cfg.level = .l5 then 35 else 25 := by
  unfold nightSkyLayer generateNightSky
  rw [countA_append, countA_append, countA_append, countA_append,
    countA_generateStars]
  by_cases hl : cfg.level = .l5
  · simp [hl, countA_raw_cons, countA_nil, generateBackground]
  · simp [hl, countA_raw_cons, countA_nil, generateBackground]

theorem countA_bgFireworkItem (c : BackgroundFireworksConfig) (i s : ℕ) :
    (((bgFireworkItem c i s).1).map countA).sum = 14 := by
  simp only [bgFireworkItem, List.map_cons, List.map_map, List.sum_cons]
  rw [countA_raw_cons, countA_anim_cons, countA_anim_cons, countA_nil]
  rw [sum_map_const _ 2 _ (by
    intro a ha
    simp [Function.comp, countA_raw_cons, countA_anim_cons, countA_nil])]
  simp

theorem countA_generateBackgroundFireworks (c : BackgroundFireworksConfig) :
    countA (generateBackgroundFireworks c) = 14 * c.count := by
  unfold generateBackgroundFireworks
  rw [countA_append, countA_append, countA_joinSep]
  rw [statList_countA_sum (bgFireworkItem c) 14 (countA_bgFireworkItem c)]
  simp [countA_raw_cons, countA_nil]

theorem countA_shapedParticle (c : ShapedParticleConfig) (i : ℕ) (pos : Position) :
    countA (shapedParticle c i pos) = 2 := by
  simp [shapedParticle, countA_raw_cons, countA_anim_cons, countA_nil]

theorem countA_generateShapedParticles (c : ShapedParticleConfig) :
    countA (generateShapedParticles c) = 2 * c.positions.length := by
  unfold generateShapedParticles
  rw [countA_append, countA_append, countA_joinSep]
  rw [List.mapIdx_eq_enum_map, List.map_map]
  rw [sum_map_const _ 2 _ (by
    rintro ⟨i, pos⟩ -
    simp [Function.comp, Function.uncurry, countA_shapedParticle])]
  simp [countA_raw_cons, countA_nil]

theorem countA_reflectionPoint (c : ReflectionConfig) (rc i : ℕ) :
    countA (reflectionPoint c rc i) = 2 := by
  simp [reflectionPoint, countA_raw_cons, countA_anim_cons, countA_nil]

theorem countA_generateReflectionPoints (c : ReflectionConfig) :
    countA (generateReflectionPoints c) = 2 * (c.particleCount / 2) := by
  unfold generateReflectionPoints
  rw [countA_append, countA_append, countA_joinSep]
  rw [sum_map_const _ 2 _ (by
    intro a ha
    obtain ⟨i, -, rfl⟩ := List.mem_map.mp ha
    exact countA_reflectionPoint c _ i)]
  simp [countA_raw_cons, countA_nil]

theorem getHeartPositions_length (count : ℕ) (scale : ℝ) :
    (getHeartPositions count scale).length = count := by
  simp [getHeartPositions]

theorem getStarPositions_length (count : ℕ) (o i : ℝ) :
    (getStarPositions count o i).length = count := by
  simp [getStarPositions]

theorem countA_overlayLayer (cfg : FireworksSVGConfig) :
    countA (overlayLayer cfg) = 0 := by
  unfold overlayLayer generateUserOverlay
  rw [countA_raw_cons, countA_nil]

theorem countA_bgFireworksLayer (cfg : FireworksSVGConfig) :
    countA (bgFireworksLayer cfg) = 14 * bgFireworksCount cfg.level := by
  unfold bgFireworksLayer
  by_cases hpos : bgFireworksCount cfg.level > 0
  · rw [if_pos hpos, countA_generateBackgroundFireworks]
  · rw [if_neg hpos, countA_nil]
    omega

theorem countA_generateKataLevel1 (c : LevelConfig) :
    countA (generateKataLevel1 c) = 35 := by
  unfold generateKataLevel1
  simp [countA_append, countA_raw_cons, countA_nil, countA_generateGlowFilter,
    countA_generateThemeTrail, countA_generateSpark, countA_generateThemeParticles]

theorem countA_generateKataLevel2 (c : LevelConfig) :
    countA (generateKataLevel2 c) = 94 := by
  unfold generateKataLevel2
  simp [countA_append, countA_raw_cons, countA_nil, countA_generateGlowFilter,
    countA_joinSep, List.mapIdx_cons, List.mapIdx_nil,
    countA_generateThemeTrail, countA_generateSpark, countA_generateThemeParticles]

theorem countA_generateKataLevel3 (c : LevelConfig) :
    countA (generateKataLevel3 c) = 207 := by
  unfold generateKataLevel3
  simp [countA_append, countA_raw_cons, countA_nil, countA_generateGlowFilter,
    countA_joinSep, List.mapIdx_cons, List.mapIdx_nil,
    countA_generateThemeTrail, countA_generateSpark, countA_generateRotatingParticles]

theorem countA_generateKataLevel4 (c : LevelConfig) :
    countA (generateKataLevel4 c) = 253 := by
  unfold generateKataLevel4
  simp [countA_append, countA_raw_cons, countA_nil, countA_generateGlowFilter,
    countA_joinSep, List.mapIdx_cons, List.mapIdx_nil,
    countA_generateThemeTrail, countA_generateSpark, countA_generateGravityParticles]

theorem countA_generateKataLevel5 (c : LevelConfig) :
    countA (generateKataLevel5 c) = 389 := by
  unfold generateKataLevel5
  simp [countA_append, countA_raw_cons, countA_nil, countA_generateGlowFilter,
    countA_joinSep, List.mapIdx_cons, List.mapIdx_nil,
    countA_generateThemeTrail, countA_generateSpark, countA_generateThemeParticles,
    countA_generateGravityParticles]

theorem countA_generateMatsuriLevel1 (c : LevelConfig) (mrand : ℕ → ℚ) :
    countA (generateMatsuriLevel1 c mrand) = 39 := by
  unfold generateMatsuriLevel1
  simp [countA_append, countA_raw_cons, countA_nil, countA_generateGlowFilter,
    countA_generateThemeTrail, countA_generateSparklerEffect]

theorem countA_generateMatsuriLevel2 (c : LevelConfig) :
    countA (generateMatsuriLevel2 c) = 90 := by
  unfold generateMatsuriLevel2
  simp [countA_append, countA_raw_cons, countA_nil, countA_generateGlowFilter,
    countA_generateThemeTrail, countA_generateSpark, countA_generateShapedParticles,
    getHeartPositions_length, getStarPositions_length]

theorem countA_generateMatsuriLevel3 (c : LevelConfig) :
    countA (generateMatsuriLevel3 c) = 341 := by
  unfold generateMatsuriLevel3
  simp [countA_append, countA_raw_cons, countA_nil, countA_generateGlowFilter,
    countA_joinSep, List.mapIdx_cons, List.mapIdx_nil,
    countA_generateThemeTrail, countA_generateSpark, countA_generateThemeParticles]

theorem countA_generateMatsuriLevel4 (c : LevelConfig) :
    countA (generateMatsuriLevel4 c) = 223 := by
  unfold generateMatsuriLevel4
  simp [countA_append, countA_raw_cons, countA_nil, countA_generateGlowFilter,
    countA_joinSep, List.mapIdx_cons, List.mapIdx_nil,
    countA_generateThemeTrail, countA_generateSpark, countA_generateThemeParticles,
    countA_generateReflectionPoints, generateWaterGradient, generateWaterSurface]

theorem countA_generateMatsuriLevel5 (c : LevelConfig) :
    countA (generateMatsuriLevel5 c) = 511 := by
  unfold generateMatsuriLevel5
  simp [countA_append, countA_raw_cons, countA_nil, countA_generateGlowFilter,
    countA_joinSep, List.mapIdx_cons, List.mapIdx_nil,
    countA_generateThemeTrail, countA_generateSpark, countA_generateThemeParticles,
    countA_generateCoreFlash, countA_generateRingWaves]

/-- Total timeline count of the composed SVG, layer by layer. -/
theorem countA_generateFireworksSVG (cfg : FireworksSVGConfig) (mrand : ℕ → ℚ) :
    countA (generateFireworksSVG cfg mrand) =
      countA (nightSkyLayer cfg) + countA (bgFireworksLayer cfg) +
      countA (fireworksLayer cfg mrand) + countA (niagaraLayer cfg) +
      countA (overlayLayer cfg) := by
  unfold generateFireworksSVG
  simp [countA_append, countA_raw_cons, countA_nil]
  ring

/-- C8: for each theme and canvas size, the level-5 output contains strictly
more declarative timeline elements than the level-1 output. -/
theorem c8_level5_more_timelines (theme : ThemeName) (u nm1 nm5 : String)
    (cm1 cm5 : ℤ) (w h : ℕ) (r1 r5 : ℕ → ℚ) :
    countA (generateFireworksSVG ⟨u, cm1, .l1, nm1, w, h, some theme, false⟩ r1) <
    countA (generateFireworksSVG ⟨u, cm5, .l5, nm5, w, h, some theme, false⟩ r5) := by
  rw [countA_generateFireworksSVG, countA_generateFireworksSVG]
  rw [countA_nightSkyLayer, countA_nightSkyLayer, countA_bgFireworksLayer,
    countA_bgFireworksLayer, countA_overlayLayer, countA_overlayLayer]
  cases theme with
  | kata =>
    rw [show countA (fireworksLayer ⟨u, cm1, .l1, nm1, w, h, some .kata, false⟩ r1) =
        35 from countA_generateKataLevel1 _]
    rw [show countA (fireworksLayer ⟨u, cm5, .l5, nm5, w, h, some .kata, false⟩ r5) =
        389 from countA_generateKataLevel5 _]
    rw [show countA (niagaraLayer ⟨u, cm1, .l1, nm1, w, h, some .kata, false⟩) =
        0 from rfl]
    rw [show countA (niagaraLayer ⟨u, cm5, .l5, nm5, w, h, some .kata, false⟩) =
        0 from rfl]
    simp [bgFireworksCount, FireworksLevel.toNat]
  | matsuri =>
    rw [show countA (fireworksLayer ⟨u, cm1, .l1, nm1, w, h, some .matsuri, false⟩ r1) =
        39 from countA_generateMatsuriLevel1 _ r1]
    rw [show countA (fireworksLayer ⟨u, cm5, .l5, nm5, w, h, some .matsuri, false⟩ r5) =
        511 from countA_generateMatsuriLevel5 _]
    rw [show countA (niagaraLayer ⟨u, cm1, .l1, nm1, w, h, some .matsuri, false⟩) =
        0 from rfl]
    rw [show countA (niagaraLayer ⟨u, cm5, .l5, nm5, w, h, some .matsuri, false⟩) =
        0 from rfl]
    simp [bgFireworksCount, FireworksLevel.toNat]

theorem mem_joinSep {p : Piece} (sep : String) :
    ∀ (l : List Frag), p ∈ joinSep sep l → p = Piece.raw sep ∨ ∃ f ∈ l, p ∈ f := by
  intro l
  induction l with
  | nil => intro h; cases h
  | cons f fs ih =>
    cases fs with
    | nil =>
      intro h
      exact Or.inr ⟨f, List.mem_cons_self f [], h⟩
    | cons g gs =>
      intro h
      rw [show joinSep sep (f :: g :: gs) =
          f ++ ([Piece.raw sep] ++ joinSep sep (g :: gs)) from by
        rw [← List.append_assoc]; rfl] at h
      rcases List.mem_append.mp h with hf | h2
      · exact Or.inr ⟨f, List.mem_cons_self f _, hf⟩
      rcases List.mem_append.mp h2 with hs | hrest
      · exact Or.inl (List.mem_singleton.mp hs)
      rcases ih hrest with heq | ⟨f', hf', hp⟩
      · exact Or.inl heq
      · exact Or.inr ⟨f', List.mem_cons_of_mem f hf', hp⟩

theorem mem_statList {f : Frag} {α : Type} (g : α → ℕ → List Frag × ℕ) :
    ∀ (l : List α) (s : ℕ), f ∈ (statList g l s).1 → ∃ a s', f ∈ (g a s').1 := by
  intro l
  induction l with
  | nil => intro s h; cases h
  | cons a as ih =>
    intro s h
    rcases List.mem_append.mp h with h1 | h2
    · exact ⟨a, s, h1⟩
    · exact ih _ h2

theorem timelineOk_anim {tf : Bool} {pre mid post : String} {v kt : List String}
    (hlen : v.length = kt.length) (hlast : kt.getLast? = some "1") :
    (Piece.anim tf pre v mid (some kt) post).timelineOk :=
  ⟨kt, rfl, hlen, hlast⟩

theorem timelineOk_raw (s : String) : (Piece.raw s).timelineOk := trivial

theorem fragOk_generateThemeTrail (c : ThemeTrailConfig) :
    fragOk (generateThemeTrail c) := by
  intro p hp
  simp only [generateThemeTrail, List.mem_cons, List.not_mem_nil, or_false] at hp
  rcases hp with rfl | rfl | rfl | rfl
  · exact timelineOk_raw _
  · exact timelineOk_anim rfl rfl
  · exact timelineOk_anim rfl rfl
  · exact timelineOk_anim rfl rfl

theorem fragOk_generateSpark (cx cy : ℚ) (color : FireworkColorName)
    (delay loopDuration : ℚ) :
    fragOk (generateSpark cx cy color delay loopDuration) := by
  intro p hp
  simp only [generateSpark, List.mem_cons, List.not_mem_nil, or_false] at hp
  rcases hp with rfl | rfl | rfl
  · exact timelineOk_raw _
  · exact timelineOk_anim rfl rfl
  · exact timelineOk_anim rfl rfl

theorem fragOk_themeParticle (c : ThemeParticleConfig) (i : ℕ) :
    fragOk (themeParticle c i) := by
  intro p hp
  simp only [themeParticle, List.mem_cons, List.not_mem_nil, or_false] at hp
  rcases hp with rfl | rfl | rfl | rfl
  · exact timelineOk_raw _
  · exact timelineOk_anim rfl rfl
  · exact timelineOk_anim rfl rfl
  · exact timelineOk_anim rfl rfl

/-- Timelines of a `[header] ++ joinSep sep parts ++ [footer]` group are all
consistent provided every part's are. -/
theorem fragOk_group (hdr ftr sep : String) (parts : List Frag)
    (hparts : ∀ f ∈ parts, fragOk f) :
    fragOk ([Piece.raw hdr] ++ joinSep sep parts ++ [Piece.raw ftr]) := by
  intro p hp
  rcases List.mem_append.mp hp with h1 | h2
  · rcases List.mem_append.mp h1 with h3 | h4
    · rw [List.mem_singleton.mp h3]
      exact timelineOk_raw _
    · rcases mem_joinSep sep parts h4 with rfl | ⟨f, hf, hpf⟩
      · exact timelineOk_raw _
      · exact hparts f hf p hpf
  · rw [List.mem_singleton.mp h2]
    exact timelineOk_raw _

theorem fragOk_generateThemeParticles (c : ThemeParticleConfig) :
    fragOk (generateThemeParticles c) := by
  unfold generateThemeParticles
  apply fragOk_group
  intro f hf
  obtain ⟨i, -, rfl⟩ := List.mem_map.mp hf
  exact fragOk_themeParticle c i

theorem fragOk_rotatingParticle (c : RotatingParticleConfig) (i : ℕ) :
    fragOk (rotatingParticle c i) := by
  intro p hp
  simp only [rotatingParticle, List.mem_cons, List.not_mem_nil, or_false] at hp
  rcases hp with rfl | rfl | rfl | rfl | rfl
  · exact timelineOk_raw _
  · exact timelineOk_anim rfl rfl
  · exact timelineOk_anim rfl rfl
  · exact timelineOk_anim rfl rfl
  · exact timelineOk_anim rfl rfl

theorem fragOk_generateRotatingParticles (c : RotatingParticleConfig) :
    fragOk (generateRotatingParticles c) := by
  unfold generateRotatingParticles
  apply fragOk_group
  intro f hf
  obtain ⟨i, -, rfl⟩ := List.mem_map.mp hf
  exact fragOk_rotatingParticle c i

theorem fragOk_gravityParticle (c : GravityParticleConfig) (i : ℕ) :
    fragOk (gravityParticle c i) := by
  intro p hp
  simp only [gravityParticle, List.mem_cons, List.not_mem_nil, or_false] at hp
  rcases hp with rfl | rfl | rfl | rfl
  · exact timelineOk_raw _
  · exact timelineOk_anim rfl rfl
  · exact timelineOk_anim rfl rfl
  · exact timelineOk_anim rfl rfl

theorem fragOk_generateGravityParticles (c : GravityParticleConfig) :
    fragOk (generateGravityParticles c) := by
  unfold generateGravityParticles
  apply fragOk_group
  intro f hf
  obtain ⟨i, -, rfl⟩ := List.mem_map.mp hf
  exact fragOk_gravityParticle c i

theorem fragOk_shapedParticle (c : ShapedParticleConfig) (i : ℕ) (pos : Position) :
    fragOk (shapedParticle c i pos) := by
  intro p hp
  simp only [shapedParticle, List.mem_cons, List.not_mem_nil, or_false] at hp
  rcases hp with rfl | rfl | rfl
  · exact timelineOk_raw _
  · exact timelineOk_anim rfl rfl
  · exact timelineOk_anim rfl rfl

theorem fragOk_generateShapedParticles (c : ShapedParticleConfig) :
    fragOk (generateShapedParticles c) := by
  unfold generateShapedParticles
  apply fragOk_group
  intro f hf
  rw [List.mapIdx_eq_enum_map] at hf
  obtain ⟨⟨i, pos⟩, -, rfl⟩ := List.mem_map.mp hf
  exact fragOk_shapedParticle c i pos

theorem fragOk_bgFireworkItem (c : BackgroundFireworksConfig) (i s : ℕ)
    {f : Frag} (hf : f ∈ (bgFireworkItem c i s).1) : fragOk f := by
  intro p hp
  rcases List.mem_cons.mp hf with rfl | hcirc
  · simp only [List.mem_cons, List.not_mem_nil, or_false] at hp
    rcases hp with rfl | rfl | rfl
    · exact timelineOk_raw _
    · exact timelineOk_anim rfl rfl
    · exact timelineOk_anim rfl rfl
  · obtain ⟨j, -, rfl⟩ := List.mem_map.mp hcirc
    simp only [List.mem_cons, List.not_mem_nil, or_false] at hp
    rcases hp with rfl | rfl | rfl
    · exact timelineOk_raw _
    · exact timelineOk_anim rfl rfl
    · exact timelineOk_anim rfl rfl

theorem fragOk_generateBackgroundFireworks (c : BackgroundFireworksConfig) :
    fragOk (generateBackgroundFireworks c) := by
  unfold generateBackgroundFireworks
  apply fragOk_group
  intro f hf
  obtain ⟨i, s', hmem⟩ := mem_statList (bgFireworkItem c) _ _ hf
  exact fragOk_bgFireworkItem c i s' hmem

theorem lengthsOk_anim {tf : Bool} {pre mid post : String} {v kt : List String}
    (hlen : v.length = kt.length) :
    (Piece.anim tf pre v mid (some kt) post).lengthsOk :=
  ⟨kt, rfl, hlen⟩

theorem lengthsOk_raw (s : String) : (Piece.raw s).lengthsOk := trivial

theorem lastKeyTime_of_timelineOk {p : Piece} (h : p.timelineOk)
    (ha : p.isAnim = true) : p.lastKeyTime = some "1" := by
  cases p with
  | raw s => cases ha
  | anim tf pre v mid kt post =>
    obtain ⟨l, rfl, -, hlast⟩ := h
    simp [Piece.lastKeyTime, hlast]

theorem mem_joinSep_of_mem {p : Piece} (sep : String) :
    ∀ (l : List Frag) (f : Frag), f ∈ l → p ∈ f → p ∈ joinSep sep l := by
  intro l
  induction l with
  | nil => intro f hf; cases hf
  | cons g gs ih =>
    intro f hf hp
    rcases List.mem_cons.mp hf with rfl | hmem
    · cases gs with
      | nil => exact hp
      | cons g2 gs2 =>
        rw [show joinSep sep (f :: g2 :: gs2) =
            f ++ ([Piece.raw sep] ++ joinSep sep (g2 :: gs2)) from by
          rw [← List.append_assoc]; rfl]
        exact List.mem_append.mpr (Or.inl hp)
    · cases gs with
      | nil => cases hmem
      | cons g2 gs2 =>
        rw [show joinSep sep (g :: g2 :: gs2) =
            g ++ ([Piece.raw sep] ++ joinSep sep (g2 :: gs2)) from by
          rw [← List.append_assoc]; rfl]
        refine List.mem_append.mpr (Or.inr (List.mem_append.mpr (Or.inr ?_)))
        exact ih f hmem hp

/-- Every sparkler timeline has matched lengths, and all three of its
timelines end at `((delay + 2.0) / loopInterval).toFixed(4)` rather than at
the literal `1`. -/
theorem sparklerParticle_timelines (c : SparklerConfig) (mrand : ℕ → ℚ) (i : ℕ) :
    ∀ p ∈ sparklerParticle c mrand i, p.lengthsOk ∧
      (p.isAnim = true →
        p.lastKeyTime = some (jsToFixed 4 ((c.delay + 2) / c.loopInterval))) := by
  intro p hp
  simp only [sparklerParticle, List.mem_cons, List.not_mem_nil, or_false] at hp
  rcases hp with rfl | rfl | rfl | rfl
  · exact ⟨lengthsOk_raw _, by intro h; cases h⟩
  · exact ⟨lengthsOk_anim rfl, fun _ => rfl⟩
  · exact ⟨lengthsOk_anim rfl, fun _ => rfl⟩
  · exact ⟨lengthsOk_anim rfl, fun _ => rfl⟩

theorem sparkler_timelines (c : SparklerConfig) (mrand : ℕ → ℚ) :
    ∀ p ∈ generateSparklerEffect c mrand, p.lengthsOk ∧
      (p.isAnim = true →
        p.lastKeyTime = some (jsToFixed 4 ((c.delay + 2) / c.loopInterval))) := by
  intro p hp
  unfold generateSparklerEffect at hp
  rcases List.mem_append.mp hp with h1 | h2
  · rcases List.mem_append.mp h1 with h3 | h4
    · rw [List.mem_singleton.mp h3]
      exact ⟨lengthsOk_raw _, by intro h; cases h⟩
    · rcases mem_joinSep _ _ h4 with rfl | ⟨f, hf, hpf⟩
      · exact ⟨lengthsOk_raw _, by intro h; cases h⟩
      · obtain ⟨i, -, rfl⟩ := List.mem_map.mp hf
        exact sparklerParticle_timelines c mrand i p hpf
  · rw [List.mem_singleton.mp h2]
    exact ⟨lengthsOk_raw _, by intro h; cases h⟩

/-- Value of the sparkler's terminal key-time fraction at the configuration
used by matsuri level 1 (`delay = 0.6`, `loopInterval = 5`). -/
theorem jsToFixed_sparkler_end : jsToFixed 4 (((3 : ℚ)/5 + 2) / 5) = "0.5200" := by
  have hx : (((3 : ℚ)/5 + 2) / 5) = 13/25 := by norm_num
  rw [hx]
  have hs : ¬((13 : ℚ)/25 < 0) := by norm_num
  have hp4 : ¬((4 : ℕ) = 0) := by decide
  have h2 : (⌊|(13 : ℚ)/25| * 10 ^ 4 + 1/2⌋ : ℤ) = 5200 := by
    rw [abs_of_nonneg (show (0 : ℚ) ≤ 13/25 by norm_num)]
    norm_num
  simp only [jsToFixed]
  rw [if_neg hp4, if_neg hs, h2]
  decide

/-- The sparkler fragment generated at matsuri level 1's configuration
violates the terminal-anchor invariant: its timelines end at "0.5200". -/
theorem sparkler_violation :
    ¬ fragOk (generateSparklerEffect sparklerBugConfig (fun _ => 0)) := by
  intro hok
  have hlen : 1 < (sparklerParticle sparklerBugConfig (fun _ => 0) 0).length := by
    simp [sparklerParticle]
  have hp1 : (sparklerParticle sparklerBugConfig (fun _ => 0) 0).get ⟨1, hlen⟩ ∈
      sparklerParticle sparklerBugConfig (fun _ => 0) 0 := List.get_mem _ _ hlen
  have hf0 : sparklerParticle sparklerBugConfig (fun _ => 0) 0 ∈
      (List.range sparklerBugConfig.particleCount).map
        (sparklerParticle sparklerBugConfig (fun _ => 0)) :=
    List.mem_map.mpr ⟨0, List.mem_range.mpr (by norm_num [sparklerBugConfig]), rfl⟩
  have hfrag : (sparklerParticle sparklerBugConfig (fun _ => 0) 0).get ⟨1, hlen⟩ ∈
      generateSparklerEffect sparklerBugConfig (fun _ => 0) := by
    unfold generateSparklerEffect
    exact List.mem_append.mpr (Or.inl (List.mem_append.mpr (Or.inr
      (mem_joinSep_of_mem "\n" _ _ hf0 hp1))))
  have ha : ((sparklerParticle sparklerBugConfig (fun _ => 0) 0).get ⟨1, hlen⟩).isAnim
      = true := rfl
  have hlast := (sparkler_timelines sparklerBugConfig (fun _ => 0) _ hfrag).2 ha
  have hone := lastKeyTime_of_timelineOk (hok _ hfrag) ha
  rw [hone] at hlast
  have hval : jsToFixed 4 ((sparklerBugConfig.delay + 2) / sparklerBugConfig.loopInterval)
      = "0.5200" := jsToFixed_sparkler_end
  rw [hval] at hlast
  exact absurd (Option.some.inj hlast) (by decide)

/-- C1: The matched-cardinality half of the timeline invariant holds for every
listed generator, and the terminal-anchor half ("the last keyTimes fraction is
exactly 1") holds for the trail, spark, radial, rotating, gravity and shaped
burst generators and the ambient background bursts — but not for the sparkler
effect: all three of its timelines end at
`((delay + 2) / loopInterval).toFixed(4)` instead, and at the configuration
matsuri level 1 uses (delay 0.6, loop interval 5) that terminal fraction is
the string "0.5200", so the sparkler fragment violates the invariant. -/
theorem c1_timeline_invariant_sparkler_bug :
    (∀ c : ThemeTrailConfig, fragOk (generateThemeTrail c)) ∧
    (∀ (cx cy : ℚ) (color : FireworkColorName) (delay loopDuration : ℚ),
        fragOk (generateSpark cx cy color delay loopDuration)) ∧
    (∀ c : ThemeParticleConfig, fragOk (generateThemeParticles c)) ∧
    (∀ c : RotatingParticleConfig, fragOk (generateRotatingParticles c)) ∧
    (∀ c : GravityParticleConfig, fragOk (generateGravityParticles c)) ∧
    (∀ c : ShapedParticleConfig, fragOk (generateShapedParticles c)) ∧
    (∀ c : BackgroundFireworksConfig, fragOk (generateBackgroundFireworks c)) ∧
    (∀ (c : SparklerConfig) (mrand : ℕ → ℚ),
        ∀ p ∈ generateSparklerEffect c mrand, p.lengthsOk ∧
          (p.isAnim = true →
            p.lastKeyTime = some (jsToFixed 4 ((c.delay + 2) / c.loopInterval)))) ∧
    jsToFixed 4 ((sparklerBugConfig.delay + 2) / sparklerBugConfig.loopInterval)
      = "0.5200" ∧
    ¬ fragOk (generateSparklerEffect sparklerBugConfig (fun _ => 0)) :=
  ⟨fragOk_generateThemeTrail, fragOk_generateSpark, fragOk_generateThemeParticles,
   fragOk_generateRotatingParticles, fragOk_generateGravityParticles,
   fragOk_generateShapedParticles, fragOk_generateBackgroundFireworks,
   sparkler_timelines, jsToFixed_sparkler_end, sparkler_violation⟩

theorem str_ext {s t : String} (h : s.data = t.data) : s = t := by
  cases s; cases t; cases h; rfl

theorem string_append_assoc (a b c : String) : a ++ b ++ c = a ++ (b ++ c) :=
  str_ext (by simp [str_data_append, List.append_assoc])

theorem str_append_left_cancel {a m1 m2 : String} (h : a ++ m1 = a ++ m2) :
    m1 = m2 := by
  have h2 : a.data ++ m1.data = a.data ++ m2.data := by
    have h3 := congrArg String.data h
    simpa [str_data_append] using h3
  exact str_ext (List.append_cancel_left h2)

theorem str_append_right_cancel {m1 m2 b : String} (h : m1 ++ b = m2 ++ b) :
    m1 = m2 := by
  have h2 : m1.data ++ b.data = m2.data ++ b.data := by
    have h3 := congrArg String.data h
    simpa [str_data_append] using h3
  exact str_ext (List.append_cancel_right h2)

theorem joinSep_cons_ne (sep : String) (f : Frag) (t : List Frag) (h : t ≠ []) :
    joinSep sep (f :: t) = f ++ [Piece.raw sep] ++ joinSep sep t := by
  cases t with
  | nil => exact absurd rfl h
  | cons g gs => rfl

/-- `sparklerParticle` reads the random stream only at its own index. -/
theorem sparklerParticle_congr (c : SparklerConfig) (r1 r2 : ℕ → ℚ) (i : ℕ)
    (h : r1 i = r2 i) : sparklerParticle c r1 i = sparklerParticle c r2 i := by
  simp only [sparklerParticle]
  rw [h]

/-- Sparkler particle 0 in closed form: the angle is 0, so `cos = 1`,
`sin = 0`, and the translate target is `round(distance)` horizontally. -/
theorem sparklerP0 (c : SparklerConfig) (r : ℕ → ℚ) (d : ℤ)
    (hd : round (c.maxDistance * (3/5 + r 0 * (2/5))) = d) :
    sparklerParticle c r 0 = sparklerP0frag c d := by
  simp only [sparklerParticle, sparklerP0frag, Nat.cast_zero, mul_zero, zero_div,
    zero_mul, add_zero, zero_add, Real.cos_zero, Real.sin_zero, one_mul,
    Rat.round_cast, round_zero, hd]

/-- The renders of particle 0 at the two jittered distances 15 and 24
differ: the translate `values` attribute differs. -/
theorem render_sparklerP0_ne (c : SparklerConfig) :
    renderF (sparklerP0frag c 15) ≠ renderF (sparklerP0frag c 24) := by
  intro h
  simp only [sparklerP0frag, renderF_cons, renderF_nil, Piece.render,
    string_append_assoc] at h
  repeat replace h := str_append_left_cancel h
  replace h := str_append_right_cancel h
  exact absurd h (by decide)

/-- Two random streams that agree beyond index 0 but round particle 0's
distance to 15 and 24 respectively produce different sparkler markup. -/
theorem sparkler_render_ne (c : SparklerConfig) (hc : c.particleCount = 12)
    (r1 r2 : ℕ → ℚ) (ht : ∀ k : ℕ, r1 (k + 1) = r2 (k + 1))
    (h15 : round (c.maxDistance * (3/5 + r1 0 * (2/5))) = 15)
    (h24 : round (c.maxDistance * (3/5 + r2 0 * (2/5))) = 24) :
    renderF (generateSparklerEffect c r1) ≠ renderF (generateSparklerEffect c r2) := by
  intro h
  unfold generateSparklerEffect at h
  rw [hc] at h
  rw [show List.range 12 = 0 :: List.map Nat.succ (List.range 11) from
    List.range_succ_eq_map 11] at h
  simp only [List.map_cons, List.map_map] at h
  have htail : List.map (sparklerParticle c r1 ∘ Nat.succ) (List.range 11) =
      List.map (sparklerParticle c r2 ∘ Nat.succ) (List.range 11) := by
    refine List.map_congr_left fun k _ => ?_
    show sparklerParticle c r1 (k + 1) = sparklerParticle c r2 (k + 1)
    exact sparklerParticle_congr c r1 r2 (k + 1) (ht k)
  rw [htail] at h
  rw [joinSep_cons_ne _ _ _ (by simp), joinSep_cons_ne _ _ _ (by simp)] at h
  simp only [renderF_append, string_append_assoc] at h
  replace h := str_append_left_cancel h
  replace h := str_append_right_cancel h
  rw [sparklerP0 c r1 15 h15, sparklerP0 c r2 24 h24] at h
  exact render_sparklerP0_ne c h

/-- The theme layer reads the `Math.random()` stream only at matsuri level 1. -/
theorem fireworksLayer_congr (cfg : FireworksSVGConfig) (r1 r2 : ℕ → ℚ)
    (h : cfg.theme.getD ThemeName.kata ≠ ThemeName.matsuri ∨
      cfg.level ≠ FireworksLevel.l1) :
    fireworksLayer cfg r1 = fireworksLayer cfg r2 := by
  unfold fireworksLayer
  cases he : cfg.theme.getD ThemeName.kata with
  | kata => cases cfg.level <;> rfl
  | matsuri =>
    cases hl : cfg.level with
    | l0 => rfl
    | l1 =>
      rcases h with h | h
      · exact absurd he h
      · exact absurd hl h
    | l2 => rfl
    | l3 => rfl
    | l4 => rfl
    | l5 => rfl

/-- Full-output determinism away from matsuri level 1. -/
theorem generateFireworksSVGStr_congr (cfg : FireworksSVGConfig) (r1 r2 : ℕ → ℚ)
    (h : cfg.theme.getD ThemeName.kata ≠ ThemeName.matsuri ∨
      cfg.level ≠ FireworksLevel.l1) :
    generateFireworksSVGStr cfg r1 = generateFireworksSVGStr cfg r2 := by
  unfold generateFireworksSVGStr generateFireworksSVG
  rw [fireworksLayer_congr cfg r1 r2 h]

/-- Two `Math.random()` streams witnessing nondeterminism of the full SVG at
matsuri level 1 on a 400x200 canvas. -/
theorem c2_violation :
    generateFireworksSVGStr c2Config (fun _ => (0 : ℚ)) ≠
      generateFireworksSVGStr c2Config (fun n => if n = 0 then (9 : ℚ)/10 else 0) := by
  intro h
  unfold generateFireworksSVGStr generateFireworksSVG at h
  simp only [renderF_append, string_append_assoc] at h
  replace h := str_append_left_cancel h
  replace h := str_append_left_cancel h
  replace h := str_append_left_cancel h
  replace h := str_append_left_cancel h
  replace h := str_append_left_cancel h
  replace h := str_append_right_cancel h
  have hm : ∀ r : ℕ → ℚ, fireworksLayer c2Config r =
      generateMatsuriLevel1 ⟨400, 200⟩ r := fun r => rfl
  rw [hm, hm] at h
  simp only [generateMatsuriLevel1, renderF_append, string_append_assoc] at h
  replace h := str_append_left_cancel h
  replace h := str_append_left_cancel h
  replace h := str_append_left_cancel h
  replace h := str_append_left_cancel h
  replace h := str_append_left_cancel h
  replace h := str_append_right_cancel h
  exact sparkler_render_ne _ rfl _ _ (fun k => by simp)
    (by
      show round ((25 : ℚ) * (3/5 + 0 * (2/5))) = 15
      rw [round_eq]; norm_num)
    (by
      show round ((25 : ℚ) * (3/5 + 9/10 * (2/5))) = 24
      rw [round_eq]; norm_num) h

/-- C2: The top-level SVG generation is a pure function of the configuration
and the `Math.random()` stream, so for every configuration whose theme/level
pair is not (matsuri, 1) the output is byte-identical regardless of the
stream — but at matsuri level 1 the sparkler effect consumes unseeded
`Math.random()`, and two streams (all-zero versus 0.9 at the first draw)
yield different output strings for the same fixed configuration (username
"octocat", 1 commit, level 1, theme matsuri, 400x200, no extra effect), so
repeated calls are not guaranteed byte-identical. -/
theorem c2_determinism_broken_by_sparkler :
    (∀ (cfg : FireworksSVGConfig) (r1 r2 : ℕ → ℚ),
        cfg.theme.getD ThemeName.kata ≠ ThemeName.matsuri ∨
          cfg.level ≠ FireworksLevel.l1 →
        generateFireworksSVGStr cfg r1 = generateFireworksSVGStr cfg r2) ∧
    generateFireworksSVGStr c2Config (fun _ => (0 : ℚ)) ≠
      generateFireworksSVGStr c2Config (fun n => if n = 0 then (9 : ℚ)/10 else 0) :=
  ⟨generateFireworksSVGStr_congr, c2_violation⟩

end GrassFireworks
